import Mathlib

/-!
Shallow embedding of the pedestrian crowd simulator
(`src/simulation/simulator.rs` and `src/simulation/pedestrian.rs`).

Rust `f64` arithmetic is modelled by exact real arithmetic; the sources of
randomness (`rand::random`, shuffles, uniform draws) are modelled by passing
the sampled values as explicit arguments, so every operation is a pure
function of its inputs.
-/

namespace PedSim

open Real Classical

noncomputable section

/-- Truncation toward zero, as Rust performs when evaluating `%` on `f64`. -/
def rtrunc (x : ℝ) : ℝ := if 0 ≤ x then (⌊x⌋ : ℤ) else (⌈x⌉ : ℤ)

/-- Rust `%` on `f64` values (fmod): `x - y * trunc (x / y)`. -/
def rfmod (x y : ℝ) : ℝ := x - y * rtrunc (x / y)

/-- Rust `f64::atan2` (`y.atan2 x`), on real numbers.  The quadrant fixups
match IEEE `atan2`; signed zeros do not exist on `ℝ`, and `atan2 0 0 = 0`
as for positive-zero arguments in Rust. -/
def atan2 (y x : ℝ) : ℝ :=
  if 0 < x then arctan (y / x)
  else if x < 0 then (if 0 ≤ y then arctan (y / x) + π else arctan (y / x) - π)
  else if 0 < y then π / 2
  else if y < 0 then -(π / 2)
  else 0

/-- Rust `std::f64::consts::TAU`. -/
def TAU : ℝ := 2 * π

/-- simulator.rs: `TARGET_LOCATION_RADIUS`. -/
def TARGET_LOCATION_RADIUS : ℝ := 1.5

/-- pedestrian.rs: `PEDESTRIAN_ACCEL`. -/
def PEDESTRIAN_ACCEL : ℝ := 0.8

/-- pedestrian.rs: `PEDESTRIAN_DIRECTION_CHANGE_FACTOR`. -/
def PEDESTRIAN_DIRECTION_CHANGE_FACTOR : ℝ := 1.0

/-- pedestrian.rs: `PEDESTRIAN_RADIUS`. -/
def PEDESTRIAN_RADIUS : ℝ := 0.205

/-- pedestrian.rs: `PEDESTRIAN_PSPACE_RADIUS`. -/
def PEDESTRIAN_PSPACE_RADIUS : ℝ := 0.856

/-- pedestrian.rs: `PEDESTRIAN_LOOK_AHEAD_RADIUS`. -/
def PEDESTRIAN_LOOK_AHEAD_RADIUS : ℝ := 2.0

/-- pedestrian.rs: `PEDESTRIAN_LOOK_BESIDE_RADIUS`. -/
def PEDESTRIAN_LOOK_BESIDE_RADIUS : ℝ := 1.2

/-- pedestrian.rs: `PEDESTRIAN_LOOK_AHEAD_FOV`. -/
def PEDESTRIAN_LOOK_AHEAD_FOV : ℝ := π / 2

/-- pedestrian.rs: `PEDESTRIAN_LOOK_BESIDE_FOV`. -/
def PEDESTRIAN_LOOK_BESIDE_FOV : ℝ := π / 2

/-- pedestrian.rs: `PEDESTRIAN_OPPOSING_REPULSION`. -/
def PEDESTRIAN_OPPOSING_REPULSION : ℝ := 0.25

/-- pedestrian.rs: `PEDESTRIAN_PSPACE_REPULSION`. -/
def PEDESTRIAN_PSPACE_REPULSION : ℝ := 0.3

/-- pedestrian.rs: `PEDESTRIAN_OPPOSING_DECEL`. -/
def PEDESTRIAN_OPPOSING_DECEL : ℝ := PEDESTRIAN_ACCEL * 1.5

/-- pedestrian.rs: `WALL_REPULSION`. -/
def WALL_REPULSION : ℝ := 0.2

/-- pedestrian.rs: `PEDESTRIAN_SPEED_NOISE_FACTOR`. -/
def PEDESTRIAN_SPEED_NOISE_FACTOR : ℝ := 0.8

/-- pedestrian.rs: `PEDESTRIAN_DIRECTION_NOISE_FACTOR`. -/
def PEDESTRIAN_DIRECTION_NOISE_FACTOR : ℝ := 0.4

/-- pedestrian.rs: `PEDESTRIAN_ETIQUETTE_BIAS_FACTOR`. -/
def PEDESTRIAN_ETIQUETTE_BIAS_FACTOR : ℝ := 0.25

/-- pedestrian.rs: `enum Etiquette`. -/
inductive Etiquette
  | LeftBias
  | RightBias
  | NoBias
deriving DecidableEq

/-- simulator.rs: `struct Wall`. -/
structure Wall where
  x1 : ℝ
  y1 : ℝ
  x2 : ℝ
  y2 : ℝ

/-- simulator.rs: `Wall::new` (a plain constructor with no validation). -/
def Wall.new (x1 y1 x2 y2 : ℝ) : Wall := ⟨x1, y1, x2, y2⟩

/-- simulator.rs: the local `vec_dot` helper of `Wall::get_normal_vector`. -/
def vec_dot (v1 v2 : ℝ × ℝ) : ℝ := v1.1 * v2.1 + v1.2 * v2.2

/-- simulator.rs: the local `vec_dist_sq` helper of `Wall::get_normal_vector`. -/
def vec_dist_sq (p1 p2 : ℝ × ℝ) : ℝ :=
  (p2.1 - p1.1) * (p2.1 - p1.1) + (p2.2 - p1.2) * (p2.2 - p1.2)

/-- The scalar projection `vec_dot(ap,ab)/vec_dot(ab,ab)` computed inside
`Wall::get_normal_vector`. -/
def Wall.sproj (wl : Wall) (p : ℝ × ℝ) : ℝ :=
  vec_dot (p.1 - wl.x1, p.2 - wl.y1) (wl.x2 - wl.x1, wl.y2 - wl.y1) /
    vec_dot (wl.x2 - wl.x1, wl.y2 - wl.y1) (wl.x2 - wl.x1, wl.y2 - wl.y1)

/-- The `closest_point` computed inside `Wall::get_normal_vector`: the point
`D = A + AB * scalar_proj` on the infinite line, with the branch on
`λ = if ab.0.abs() > ab.1.abs() { ad.0/ab.0 } else { ad.1/ab.1 }`
selecting `A`, `B` or `D`, exactly as in the source. -/
def Wall.closest_point (wl : Wall) (p : ℝ × ℝ) : ℝ × ℝ :=
  let a : ℝ × ℝ := (wl.x1, wl.y1)
  let b : ℝ × ℝ := (wl.x2, wl.y2)
  let ab : ℝ × ℝ := (b.1 - a.1, b.2 - a.2)
  let d : ℝ × ℝ := (a.1 + ab.1 * wl.sproj p, a.2 + ab.2 * wl.sproj p)
  let ad : ℝ × ℝ := (d.1 - a.1, d.2 - a.2)
  let lam : ℝ := if |ab.2| < |ab.1| then ad.1 / ab.1 else ad.2 / ab.2
  if lam ≤ 0 then a else if 1 ≤ lam then b else d

/-- simulator.rs: `Wall::get_normal_vector`.  Output form:
`(distance, normal x, normal y)`; on the `dist == 0.0` edge case it
returns `(0, 0, 0)` as the source does. -/
def Wall.get_normal_vector (wl : Wall) (p : ℝ × ℝ) : ℝ × ℝ × ℝ :=
  let c := wl.closest_point p
  let dist := Real.sqrt (vec_dist_sq c p)
  if dist = 0 then (0, 0, 0) else (dist, p.1 - c.1, p.2 - c.2)

/-- Modelled from the spec (section 4.1 wording, used only to compare with
the code-side `Wall.closest_point`): the projection parameter is clamped to
the interval `[0,1]` and the closest point taken on the segment itself. -/
def Wall.spec_closest (wl : Wall) (p : ℝ × ℝ) : ℝ × ℝ :=
  let t := min 1 (max 0 (wl.sproj p))
  (wl.x1 + (wl.x2 - wl.x1) * t, wl.y1 + (wl.y2 - wl.y1) * t)

/-- pedestrian.rs: the free function `nudge_angle`. -/
def nudge_angle (initial_angle target_angle nudge_r : ℝ) : ℝ :=
  let angle_diff := rfmod (initial_angle - target_angle + TAU + π) TAU - π
  rfmod (initial_angle - angle_diff * nudge_r + TAU) TAU

/-- simulator.rs: `struct SimArea`. -/
structure SimArea where
  boundaries : List Wall
  start_positions : List (List (ℝ × ℝ))
  end_positions : List (List (ℝ × ℝ))
  timing_boundaries : List Wall

/-- simulator.rs: `SimArea::new`. -/
def SimArea.new : SimArea := ⟨[], [], [], []⟩

/-- simulator.rs: `SimArea::add_wall` (a plain `Vec::push`, no validation). -/
def SimArea.add_wall (a : SimArea) (point1 point2 : ℝ × ℝ) : SimArea :=
  { a with boundaries := a.boundaries ++ [Wall.new point1.1 point1.2 point2.1 point2.2] }

/-- simulator.rs: `SimArea::add_start_end_group`. -/
def SimArea.add_start_end_group (a : SimArea) (starts ends : List (ℝ × ℝ)) : SimArea :=
  { a with start_positions := a.start_positions ++ [starts],
           end_positions := a.end_positions ++ [ends] }

/-- simulator.rs: `SimArea::add_timing_boundary` (a plain push, no validation). -/
def SimArea.add_timing_boundary (a : SimArea) (point1 point2 : ℝ × ℝ) : SimArea :=
  { a with timing_boundaries := a.timing_boundaries ++ [Wall.new point1.1 point1.2 point2.1 point2.2] }

/-- pedestrian.rs: `struct Walker`.  The `Arc<SimArea>` is modelled by an
immutable `SimArea` value. -/
structure Walker where
  x : ℝ
  y : ℝ
  facing_direction : ℝ
  target_speed : ℝ
  inst_speed : ℝ
  environment : SimArea
  group : ℕ
  target_location : ℕ
  timing_boundary_states : List Bool
  timing_boundary_elapsed : Option ℝ
  etiquette : Etiquette

/-- pedestrian.rs: `Walker::get_dest_coords`
(`environment.end_positions[group][target_location]`; Rust panics on an
out-of-range index, the embedding totalises with `(0, 0)` and is only ever
used at valid indices). -/
def Walker.get_dest_coords (w : Walker) : ℝ × ℝ :=
  (w.environment.end_positions.getD w.group []).getD w.target_location (0, 0)

/-- pedestrian.rs: `Walker::new`. -/
def Walker.new (environment : SimArea) (group start_i end_i : ℕ) (target_speed : ℝ)
    (etiquette : Etiquette) : Walker :=
  let start_coords := (environment.start_positions.getD group []).getD start_i (0, 0)
  let end_coords := (environment.end_positions.getD group []).getD end_i (0, 0)
  { x := start_coords.1
    y := start_coords.2
    facing_direction :=
      rfmod (atan2 (end_coords.2 - start_coords.2) (end_coords.1 - start_coords.1) + TAU) TAU
    target_speed := target_speed
    inst_speed := 0
    environment := environment
    group := group
    target_location := end_i
    timing_boundary_states := List.replicate environment.timing_boundaries.length false
    timing_boundary_elapsed := none
    etiquette := etiquette }

/-- pedestrian.rs: the "intersecting hitbox" block of the neighbour loop of
`Walker::react_to_neighbours` (push apart by the overlap, face directly
away, zero the speed). -/
def collideStep (dist nangle : ℝ) (w : Walker) : Walker :=
  if dist < 2 * PEDESTRIAN_RADIUS then
    let k := 2 * PEDESTRIAN_RADIUS - dist
    { w with x := w.x - Real.cos nangle * k, y := w.y - Real.sin nangle * k,
             facing_direction := nangle + π, inst_speed := 0 }
  else w

/-- pedestrian.rs: the "within view to the right" block of the neighbour loop
(cancel right bias). -/
def besideRightStep (time_scale dist travel_rel_angle : ℝ) (w : Walker) : Walker :=
  if dist < PEDESTRIAN_LOOK_BESIDE_RADIUS ∧ PEDESTRIAN_LOOK_AHEAD_FOV / 2 < travel_rel_angle ∧
      travel_rel_angle < PEDESTRIAN_LOOK_AHEAD_FOV / 2 + PEDESTRIAN_LOOK_BESIDE_FOV ∧
      w.etiquette = Etiquette.RightBias then
    { w with facing_direction := w.facing_direction - PEDESTRIAN_ETIQUETTE_BIAS_FACTOR * time_scale }
  else w

/-- pedestrian.rs: the "within view to the left" block of the neighbour loop
(cancel left bias). -/
def besideLeftStep (time_scale dist travel_rel_angle : ℝ) (w : Walker) : Walker :=
  if dist < PEDESTRIAN_LOOK_BESIDE_RADIUS ∧ travel_rel_angle < TAU - PEDESTRIAN_LOOK_AHEAD_FOV / 2 ∧
      TAU - (PEDESTRIAN_LOOK_AHEAD_FOV / 2 + PEDESTRIAN_LOOK_BESIDE_FOV) < travel_rel_angle ∧
      w.etiquette = Etiquette.LeftBias then
    { w with facing_direction := w.facing_direction + PEDESTRIAN_ETIQUETTE_BIAS_FACTOR * time_scale }
  else w

/-- pedestrian.rs: the "oncoming" branch inside the front-view block of the
neighbour loop (etiquette-dependent heading change; unclamped deceleration
in the `NoBias` case). -/
def oncomingStep (time_scale nangle : ℝ) (w : Walker) : Walker :=
  if w.etiquette = Etiquette.LeftBias then
    let away_angle := rfmod (nangle - π / 2 + TAU) TAU
    let fd := nudge_angle w.facing_direction away_angle (PEDESTRIAN_OPPOSING_REPULSION * time_scale)
    { w with facing_direction := fd }
  else if w.etiquette = Etiquette.RightBias then
    let away_angle := rfmod (nangle + π / 2 + TAU) TAU
    let fd := nudge_angle w.facing_direction away_angle (PEDESTRIAN_OPPOSING_REPULSION * time_scale)
    { w with facing_direction := fd }
  else
    let fd := nudge_angle w.facing_direction (nangle + π) (PEDESTRIAN_OPPOSING_REPULSION * time_scale)
    { w with inst_speed := w.inst_speed - PEDESTRIAN_ACCEL * time_scale / 2,
             facing_direction := fd }

/-- pedestrian.rs: the "within view in front" block of the neighbour loop
(`direction_difference` test for oncoming vs same direction, plus the
clamped personal-space deceleration). -/
def frontStep (time_scale dist nangle ndir : ℝ) (w : Walker) : Walker :=
  let travel_rel_angle2 := rfmod (nangle - w.facing_direction + TAU + TAU) TAU
  if dist < PEDESTRIAN_LOOK_AHEAD_RADIUS ∧ (travel_rel_angle2 ≤ PEDESTRIAN_LOOK_AHEAD_FOV / 2 ∨
      TAU - PEDESTRIAN_LOOK_AHEAD_FOV / 2 ≤ travel_rel_angle2) then
    let direction_difference := rfmod (w.facing_direction - ndir + TAU) TAU
    let w4a :=
      if π / 2 < direction_difference ∧ direction_difference < 3 * π / 2 then
        oncomingStep time_scale nangle w
      else
        { w with inst_speed := max 0 (w.inst_speed - PEDESTRIAN_ACCEL * time_scale / 2) }
    if dist < PEDESTRIAN_RADIUS + PEDESTRIAN_PSPACE_RADIUS then
      { w4a with inst_speed := max 0 (w4a.inst_speed - PEDESTRIAN_OPPOSING_DECEL * time_scale) }
    else w4a
  else w

/-- pedestrian.rs: the trailing "within personal space" block of the
neighbour loop (continuous repulsion, intensity inversely proportional to
the separation distance). -/
def pspaceStep (time_scale dist nangle : ℝ) (w : Walker) : Walker :=
  if dist < PEDESTRIAN_RADIUS + PEDESTRIAN_PSPACE_RADIUS then
    let fd := nudge_angle w.facing_direction (nangle + π) (PEDESTRIAN_PSPACE_REPULSION * time_scale / dist)
    { w with facing_direction := fd }
  else w

/-- pedestrian.rs: the body of the `for (n_x, n_y, n_dir) in other_pedestrians`
loop of `Walker::react_to_neighbours`, for one neighbour `nb = (x, y, dir)`.
`dist` and `abs_neighbour_angle` are computed once from the pre-block
position; `travel_rel_angle` is computed once after the hitbox block and
shared by both beside checks, then recomputed inside the front block. -/
def neighbourStep (time_scale : ℝ) (w : Walker) (nb : ℝ × ℝ × ℝ) : Walker :=
  let dist := Real.sqrt ((w.x - nb.1) * (w.x - nb.1) + (w.y - nb.2.1) * (w.y - nb.2.1))
  let nangle := atan2 (nb.2.1 - w.y) (nb.1 - w.x)
  let w1 := collideStep dist nangle w
  let travel_rel_angle := rfmod (nangle - w1.facing_direction + TAU + TAU) TAU
  let w2 := besideRightStep time_scale dist travel_rel_angle w1
  let w3 := besideLeftStep time_scale dist travel_rel_angle w2
  let w4 := frontStep time_scale dist nangle nb.2.2 w3
  pspaceStep time_scale dist nangle w4

/-- pedestrian.rs: `Walker::react_to_neighbours` (iterate the loop body over
the neighbour snapshot in order). -/
def Walker.react_to_neighbours (w : Walker) (time_scale : ℝ)
    (other_pedestrians : List (ℝ × ℝ × ℝ)) : Walker :=
  other_pedestrians.foldl (neighbourStep time_scale) w

/-- pedestrian.rs: `Walker::apply_noise`; the two `rand::random::<f64>()`
samples are passed in as `rdir` and `rspd`. -/
def Walker.apply_noise (w : Walker) (time_scale rdir rspd : ℝ) : Walker :=
  let fd := w.facing_direction + (2 * rdir - 1) * PEDESTRIAN_DIRECTION_NOISE_FACTOR * time_scale
  let sp := w.inst_speed + (2 * rspd - 1) * PEDESTRIAN_SPEED_NOISE_FACTOR * time_scale
  { w with facing_direction := fd, inst_speed := sp }

/-- pedestrian.rs: the per-wall processing of `Walker::resolve_wall_collisions`
(the part of the loop body after the `dist == 0.0` early return), given the
precomputed `(dist, normal)` pair `dn` and `normal_angle` `na`. -/
def wallBody (time_scale : ℝ) (dn : ℝ × ℝ × ℝ) (na : ℝ) (w : Walker) : Walker :=
  let w1 :=
    if dn.1 < PEDESTRIAN_RADIUS then
      let k := PEDESTRIAN_RADIUS / dn.1 - 1
      let x := w.x + dn.2.1 * k
      let y := w.y + dn.2.2 * k
      let tgt := (w.environment.end_positions.getD w.group []).getD w.target_location (0, 0)
      let target_angle := atan2 (tgt.2 - y) (tgt.1 - x)
      let direction_difference := rfmod (target_angle - w.facing_direction + TAU + TAU) TAU
      if π / 2 < direction_difference ∧ direction_difference < 3 * π / 2 then
        { w with x := x, y := y, facing_direction := na }
      else
        { w with x := x, y := y, facing_direction := nudge_angle w.facing_direction na time_scale }
    else w
  if dn.1 < PEDESTRIAN_PSPACE_RADIUS then
    { w1 with facing_direction := nudge_angle w1.facing_direction na (WALL_REPULSION * time_scale) }
  else w1

/-- pedestrian.rs: the wall loop of `Walker::resolve_wall_collisions`; note
that on `dist == 0.0` the source performs `return`, leaving the function
entirely (remaining walls are not visited). -/
def resolveAux (time_scale : ℝ) : List Wall → Walker → Walker
  | [], w => w
  | g :: gs, w =>
    let dn := g.get_normal_vector (w.x, w.y)
    let na := atan2 dn.2.2 dn.2.1
    if dn.1 = 0 then w else resolveAux time_scale gs (wallBody time_scale dn na w)

/-- pedestrian.rs: `Walker::resolve_wall_collisions`. -/
def Walker.resolve_wall_collisions (w : Walker) (time_scale : ℝ) : Walker :=
  resolveAux time_scale w.environment.boundaries w

/-- pedestrian.rs: the gate-marking loop of `Walker::check_timing_boundaries`.
Returns the updated per-gate states, the `touched_boundary_count`, and
whether any gate was newly hit this call (which is when the source sets
`timing_boundary_elapsed = Some(0.0)` if it was `None`). -/
def scanGates (pos : ℝ × ℝ) : List Wall → List Bool → List Bool × ℕ × Bool
  | [], states => (states, 0, false)
  | g :: gs, states =>
    let s0 := states.headD false
    let hit : Bool := if s0 = false ∧ (g.get_normal_vector pos).1 ≤ PEDESTRIAN_RADIUS then true else false
    let s1 := s0 || hit
    let r := scanGates pos gs states.tail
    (s1 :: r.1, r.2.1 + (if s1 = true then 1 else 0), r.2.2 || hit)

/-- pedestrian.rs: `Walker::check_timing_boundaries`.  In pedestrian.rs the
completed measurement is printed (rounded for display); simulator.rs consumes
it as a returned option, pairing it with the group and current simulation
time.  The embedding returns the elapsed travel time as the emitted sample,
alongside the updated walker. -/
def Walker.check_timing_boundaries (w : Walker) (time_scale : ℝ) : Walker × Option ℝ :=
  let e0 : Option ℝ :=
    match w.timing_boundary_elapsed with
    | some t => some (t + time_scale)
    | none => none
  let r := scanGates (w.x, w.y) w.environment.timing_boundaries w.timing_boundary_states
  let e1 : Option ℝ :=
    match e0 with
    | some t => some t
    | none => if r.2.2 = true then some 0 else none
  match e1, r.2.1 with
  | some t, 2 =>
    ({ w with timing_boundary_states := r.1, timing_boundary_elapsed := none }, some t)
  | _, _ =>
    ({ w with timing_boundary_states := r.1, timing_boundary_elapsed := e1 }, none)

/-- pedestrian.rs: `Walker::simulate_timestep`.  The two `rand::random`
samples drawn inside `apply_noise` are passed as `rdir`/`rspd`. -/
def Walker.simulate_timestep (w : Walker) (time_scale : ℝ)
    (other_pedestrians_before other_pedestrians_after : List (ℝ × ℝ × ℝ))
    (rdir rspd : ℝ) : Walker :=
  -- apply acceleration/deceleration to change velocity
  let w1 := { w with inst_speed := min w.target_speed (w.inst_speed + PEDESTRIAN_ACCEL * time_scale) }
  let tgt := (w1.environment.end_positions.getD w1.group []).getD w1.target_location (0, 0)
  let target_angle := atan2 (tgt.2 - w1.y) (tgt.1 - w1.x)
  -- update the facing direction to be better aligned with the destination
  let fd2 := nudge_angle w1.facing_direction target_angle (PEDESTRIAN_DIRECTION_CHANGE_FACTOR * time_scale)
  let w2 := { w1 with facing_direction := fd2 }
  -- add bias to movement direction depending on etiquette
  let w3 :=
    if w2.etiquette = Etiquette.LeftBias then
      { w2 with facing_direction := w2.facing_direction - PEDESTRIAN_ETIQUETTE_BIAS_FACTOR * time_scale }
    else if w2.etiquette = Etiquette.RightBias then
      { w2 with facing_direction := w2.facing_direction + PEDESTRIAN_ETIQUETTE_BIAS_FACTOR * time_scale }
    else w2
  let w4 := w3.react_to_neighbours time_scale other_pedestrians_after
  let w5 := w4.react_to_neighbours time_scale other_pedestrians_before
  let w6 := w5.apply_noise time_scale rdir rspd
  -- apply velocity to change position
  let w7 := { w6 with x := w6.x + w6.inst_speed * Real.cos w6.facing_direction * time_scale,
                      y := w6.y + w6.inst_speed * Real.sin w6.facing_direction * time_scale }
  let w8 := w7.resolve_wall_collisions time_scale
  (w8.check_timing_boundaries time_scale).1

/-- simulator.rs: `struct CrowdSim`. -/
structure CrowdSim where
  area : SimArea
  time_elapsed : ℝ
  available_pedestrians : List Walker
  active_pedestrians : List Walker
  finished_pedestrians : List Walker
  pedestrian_add_rate : ℝ
  travel_times : List (ℝ × ℕ × ℝ)

/-- simulator.rs: `CrowdSim::new`. -/
def CrowdSim.new (area : SimArea) (pedestrian_add_rate : ℝ) : CrowdSim :=
  { area := area
    time_elapsed := 0
    available_pedestrians := []
    active_pedestrians := []
    finished_pedestrians := []
    pedestrian_add_rate := pedestrian_add_rate
    travel_times := [] }

/-- simulator.rs: `CrowdSim::add_pedestrian` (`Vec::push` onto the available
pool). -/
def CrowdSim.add_pedestrian (s : CrowdSim) (group start_i end_i : ℕ) (target_speed : ℝ)
    (etiquette : Etiquette) : CrowdSim :=
  { s with available_pedestrians :=
      s.available_pedestrians ++ [Walker.new s.area group start_i end_i target_speed etiquette] }

/-- simulator.rs: `CrowdSim::add_pedestrian_set`; the random start/end indices
and target speed drawn for each of the `number` pedestrians are supplied by
the `draws` function. -/
def CrowdSim.add_pedestrian_set : CrowdSim → ℕ → ℕ → Etiquette → (ℕ → ℕ × ℕ × ℝ) → CrowdSim
  | s, 0, _, _, _ => s
  | s, number + 1, group, etq, draws =>
    CrowdSim.add_pedestrian_set
      (s.add_pedestrian group (draws 0).1 (draws 0).2.1 (draws 0).2.2 etq)
      number group etq (fun i => draws (i + 1))

/-- simulator.rs: the `while` loop of `CrowdSim::update_active`.  `Vec::pop`
removes the tail of the available pool, so the loop is phrased on the
reversed available list (head of `avail` = tail of the Rust vector); the
loop guard is the source condition
`time_elapsed > (active.len() + finished.len()) as f64 / pedestrian_add_rate`. -/
def updateActiveAux (rate t : ℝ) : List Walker → List Walker → ℕ → List Walker × List Walker
  | [], act, _ => ([], act)
  | p :: rest, act, nfin =>
    if ((act.length + nfin : ℕ) : ℝ) / rate < t then
      updateActiveAux rate t rest (act ++ [p]) nfin
    else (p :: rest, act)

/-- simulator.rs: `CrowdSim::update_active`. -/
def CrowdSim.update_active (s : CrowdSim) : CrowdSim :=
  let r := updateActiveAux s.pedestrian_add_rate s.time_elapsed
    s.available_pedestrians.reverse s.active_pedestrians s.finished_pedestrians.length
  { s with available_pedestrians := r.1.reverse, active_pedestrians := r.2 }

/-- Modelled from the spec (section 4.3 admission-policy wording, used only to
compare with the code-side `updateActiveAux`): while available agents remain
and the cumulative admitted count `active + finished` is less than
`elapsed_time * admission_rate`, move one agent from the tail of the
available pool to the active pool. -/
def admitSpecAux (rate t : ℝ) : List Walker → List Walker → ℕ → List Walker × List Walker
  | [], act, _ => ([], act)
  | p :: rest, act, nfin =>
    if ((act.length + nfin : ℕ) : ℝ) < t * rate then
      admitSpecAux rate t rest (act ++ [p]) nfin
    else (p :: rest, act)

/-- simulator.rs: the reached-destination test of `CrowdSim::update_finished`
(`distance to get_dest_coords() < TARGET_LOCATION_RADIUS`). -/
def reachedDest (w : Walker) : Prop :=
  Real.sqrt ((w.x - w.get_dest_coords.1) * (w.x - w.get_dest_coords.1) +
    (w.y - w.get_dest_coords.2) * (w.y - w.get_dest_coords.2)) < TARGET_LOCATION_RADIUS

/-- simulator.rs: the scan-and-remove loop of `CrowdSim::update_finished` as
an order-preserving split of the active pool: first component the agents kept
active, second the agents moved to finished, both in scan order. -/
def finishSplit : List Walker → List Walker × List Walker
  | [] => ([], [])
  | p :: rest =>
    let r := finishSplit rest
    if reachedDest p then (r.1, p :: r.2) else (p :: r.1, r.2)

/-- simulator.rs: `CrowdSim::update_finished`. -/
def CrowdSim.update_finished (s : CrowdSim) : CrowdSim :=
  { s with active_pedestrians := (finishSplit s.active_pedestrians).1,
           finished_pedestrians := s.finished_pedestrians ++ (finishSplit s.active_pedestrians).2 }

/-- simulator.rs: the body of `CrowdSim::simulate_timestep` after the
`update_active` call and before `update_finished`: snapshot every active
pedestrian's `(x, y, facing_direction)`, update each active pedestrian
against the before/after slices of that snapshot, collect emitted timing
samples as `(travel time, group, time_elapsed)`, and advance
`time_elapsed` by `time_scale`.  `ns i` supplies the two noise samples for
the `i`-th active pedestrian. -/
def CrowdSim.tickAgents (time_scale : ℝ) (ns : ℕ → ℝ × ℝ) (s1 : CrowdSim) : CrowdSim :=
  let snap := s1.active_pedestrians.map (fun p => (p.x, p.y, p.facing_direction))
  let stepped := s1.active_pedestrians.mapIdx (fun i p =>
    ((p.simulate_timestep time_scale (snap.take i) (snap.drop (i + 1))
        (ns i).1 (ns i).2).check_timing_boundaries time_scale))
  { s1 with
    active_pedestrians := stepped.map Prod.fst,
    travel_times := s1.travel_times ++
      stepped.filterMap (fun q => Option.map (fun t => (t, q.1.group, s1.time_elapsed)) q.2),
    time_elapsed := s1.time_elapsed + time_scale }

/-- simulator.rs: `CrowdSim::simulate_timestep`: admission first
(`update_active`), then the per-agent updates, then `update_finished`. -/
def CrowdSim.simulate_timestep (s : CrowdSim) (time_scale : ℝ) (ns : ℕ → ℝ × ℝ) : CrowdSim :=
  (CrowdSim.tickAgents time_scale ns s.update_active).update_finished

/-- Iterated `CrowdSim::simulate_timestep`; `nss k` supplies the per-agent
noise samples of the `k`-th tick. -/
def CrowdSim.simIter (time_scale : ℝ) (nss : ℕ → ℕ → ℝ × ℝ) : ℕ → CrowdSim → CrowdSim
  | 0, s => s
  | n + 1, s => CrowdSim.simIter time_scale nss n (s.simulate_timestep time_scale (nss n))

/-- One scenario-construction call: either `CrowdSim::add_pedestrian` or
`CrowdSim::add_pedestrian_set` with its random draws. -/
inductive AddOp
  | one (group start_i end_i : ℕ) (target_speed : ℝ) (etq : Etiquette)
  | set (count group : ℕ) (etq : Etiquette) (draws : ℕ → ℕ × ℕ × ℝ)

/-- Apply one construction call to the scheduler. -/
def CrowdSim.applyOp (s : CrowdSim) : AddOp → CrowdSim
  | AddOp.one g a b tspd e => s.add_pedestrian g a b tspd e
  | AddOp.set n g e draws => s.add_pedestrian_set n g e draws

/-- Apply a sequence of construction calls to the scheduler. -/
def CrowdSim.applyOps (s : CrowdSim) (ops : List AddOp) : CrowdSim :=
  ops.foldl CrowdSim.applyOp s

/-- The number of agents a construction call adds. -/
def AddOp.agents : AddOp → ℕ
  | AddOp.one _ _ _ _ _ => 1
  | AddOp.set n _ _ _ => n

/-- The total pool size `available + active + finished` of the scheduler. -/
def totalWalkers (s : CrowdSim) : ℕ :=
  s.available_pedestrians.length + s.active_pedestrians.length + s.finished_pedestrians.length

/-- Test environment: no walls, no gates, one group walking from the origin
towards `(10, 0)`. -/
def envOpen : SimArea :=
  { boundaries := [], start_positions := [[(0, 0)]], end_positions := [[(10, 0)]],
    timing_boundaries := [] }

/-- Test agent for the speed claim: a `NoBias` walker at the origin heading
for `(10, 0)` with a small target speed. -/
def walkerSlow : Walker :=
  { x := 0, y := 0, facing_direction := 0, target_speed := 1 / 100, inst_speed := 0,
    environment := envOpen, group := 0, target_location := 0,
    timing_boundary_states := [], timing_boundary_elapsed := none,
    etiquette := Etiquette.NoBias }

/-- Test agent with a directional-bias etiquette, otherwise as `walkerSlow`. -/
def walkerLeft : Walker :=
  { x := 0, y := 0, facing_direction := 0, target_speed := 1 / 100, inst_speed := 0,
    environment := envOpen, group := 0, target_location := 0,
    timing_boundary_states := [], timing_boundary_elapsed := none,
    etiquette := Etiquette.LeftBias }

/-- Test environment with two timing gates, at `x = 3` and `x = 28`. -/
def envGates : SimArea :=
  { boundaries := [], start_positions := [[(0, 3)]], end_positions := [[(30, 3)]],
    timing_boundaries := [Wall.new 3 0 3 6, Wall.new 28 0 28 6] }

/-- Test agent standing on the first timing gate, having already crossed the
second gate, with a running gate timer of one second. -/
def walkerGate : Walker :=
  { x := 3, y := 2, facing_direction := 0, target_speed := 1, inst_speed := 1,
    environment := envGates, group := 0, target_location := 0,
    timing_boundary_states := [false, true], timing_boundary_elapsed := some 1,
    etiquette := Etiquette.NoBias }

/-- The `walkerGate` agent after its gate measurement was emitted: both
crossed flags set, elapsed timer cleared. -/
def walkerGateDone : Walker :=
  { walkerGate with
    timing_boundary_states := [true, true]
    timing_boundary_elapsed := none }

/-- Test environment with two obstacle walls: a horizontal wall through the
origin and a nearby vertical wall at `x = 5.1`. -/
def envTwoWalls : SimArea :=
  { boundaries := [Wall.new 0 0 10 0, Wall.new (51 / 10) (-1) (51 / 10) 1],
    start_positions := [[(0, 0)]], end_positions := [[(10, 0)]],
    timing_boundaries := [] }

/-- Test agent lying exactly on the first wall of `envTwoWalls`, and
overlapping the second wall (distance `0.1 <` body radius). -/
def walkerOnWall : Walker :=
  { x := 5, y := 0, facing_direction := 0, target_speed := 1, inst_speed := 1,
    environment := envTwoWalls, group := 0, target_location := 0,
    timing_boundary_states := [], timing_boundary_elapsed := none,
    etiquette := Etiquette.NoBias }

/-- Test agent overlapping the wall `(0,0)-(10,0)`: at `(5, 0.1)` its
distance `0.1` to the wall is positive but below the body radius. -/
def walkerTouch : Walker :=
  { x := 5, y := 1 / 10, facing_direction := 0, target_speed := 1, inst_speed := 1,
    environment := envOpen, group := 0, target_location := 0,
    timing_boundary_states := [], timing_boundary_elapsed := none,
    etiquette := Etiquette.NoBias }

/-- Test scheduler: empty pools over the open environment, admission rate 1,
one second of elapsed time. -/
def simEmpty : CrowdSim :=
  { area := envOpen, time_elapsed := 1, available_pedestrians := [],
    active_pedestrians := [], finished_pedestrians := [], pedestrian_add_rate := 1,
    travel_times := [] }

/-- Test scheduler with one queued pedestrian, admission rate 1, one second
of elapsed time (the admission loop will admit exactly that pedestrian). -/
def simOne : CrowdSim :=
  { area := envOpen, time_elapsed := 1, available_pedestrians := [walkerSlow],
    active_pedestrians := [], finished_pedestrians := [], pedestrian_add_rate := 1,
    travel_times := [] }

/-- Helper: `Real.sqrt` at an explicitly squared value. -/
theorem sqrt_eval (x r : ℝ) (hr : 0 ≤ r) (h : x = r * r) : Real.sqrt x = r := by
  subst h
  exact Real.sqrt_mul_self hr

/-- Helper: for a nonnegative dividend and positive divisor, `rfmod` lands in
`[0, y)` (as Rust fmod does). -/
theorem rfmod_bounds (x y : ℝ) (hy : 0 < y) (hx : 0 ≤ x) :
    0 ≤ rfmod x y ∧ rfmod x y < y := by
  have hdiv : (0 : ℝ) ≤ x / y := div_nonneg hx hy.le
  have hfl : (⌊x / y⌋ : ℝ) ≤ x / y := Int.floor_le _
  have hfl2 : x / y < ⌊x / y⌋ + 1 := Int.lt_floor_add_one _
  have hlow : (⌊x / y⌋ : ℝ) * y ≤ x := (le_div_iff₀ hy).mp hfl
  have hhigh : x < ((⌊x / y⌋ : ℝ) + 1) * y := (div_lt_iff₀ hy).mp hfl2
  unfold rfmod rtrunc
  rw [if_pos hdiv]
  constructor
  · nlinarith
  · nlinarith

/-- Helper: for a negative dividend and positive divisor, `rfmod` lands in
`(-y, 0]` (as Rust fmod does). -/
theorem rfmod_bounds_neg (x y : ℝ) (hy : 0 < y) (hx : x < 0) :
    -y < rfmod x y ∧ rfmod x y ≤ 0 := by
  have hdiv : x / y < 0 := div_neg_of_neg_of_pos hx hy
  have hcl : x / y ≤ (⌈x / y⌉ : ℝ) := Int.le_ceil _
  have hcl2 : (⌈x / y⌉ : ℝ) < x / y + 1 := Int.ceil_lt_add_one _
  have hlow : x ≤ (⌈x / y⌉ : ℝ) * y := (div_le_iff₀ hy).mp hcl
  have hhigh : (⌈x / y⌉ : ℝ) * y < (x / y + 1) * y := by
    exact mul_lt_mul_of_pos_right hcl2 hy
  have hxy : x / y * y = x := div_mul_cancel₀ x hy.ne'
  unfold rfmod rtrunc
  rw [if_neg (not_le.mpr hdiv)]
  constructor
  · nlinarith
  · nlinarith

/-- Helper: evaluation rule for `rfmod` at a known integer quotient. -/
theorem rfmod_eval (x y : ℝ) (k : ℤ) (hy : 0 < y) (hx : 0 ≤ x)
    (h1 : (k : ℝ) ≤ x / y) (h2 : x / y < (k : ℝ) + 1) : rfmod x y = x - y * k := by
  have hk : ⌊x / y⌋ = k := Int.floor_eq_iff.mpr ⟨h1, by exact_mod_cast h2⟩
  unfold rfmod rtrunc
  rw [if_pos (div_nonneg hx hy.le), hk]

/-- Helper: `TAU` is positive. -/
theorem TAU_pos : 0 < TAU := by
  unfold TAU
  linarith [Real.pi_pos]

/-- C10: for every `initial_angle` in `[0, 2π)`, every real `target_angle`,
and every `nudge_ratio` in `[0, 1]`, `nudge_angle` returns an angle in
`[0, 2π)`, so every heading adjustment made through it keeps the facing
direction normalized. -/
theorem claim_C10_nudge_angle_range (a t r : ℝ) (h0 : 0 ≤ a) (h1 : a < TAU)
    (h2 : 0 ≤ r) (h3 : r ≤ 1) : 0 ≤ nudge_angle a t r ∧ nudge_angle a t r < TAU := by
  have hpi := Real.pi_pos
  have hT := TAU_pos
  have hTpi : TAU = 2 * π := rfl
  simp only [nudge_angle]
  set d := rfmod (a - t + TAU + π) TAU - π with hd
  have hdlt : d < π := by
    rcases le_or_lt 0 (a - t + TAU + π) with hx | hx
    · have := (rfmod_bounds (a - t + TAU + π) TAU hT hx).2
      rw [hd]
      linarith [hTpi ▸ this]
    · have := (rfmod_bounds_neg (a - t + TAU + π) TAU hT hx).2
      rw [hd]
      linarith
  have hprod : d * r ≤ a + TAU := by
    rcases le_or_lt 0 d with hdp | hdn
    · have : d * r ≤ d * 1 := mul_le_mul_of_nonneg_left h3 hdp
      rw [hTpi]
      nlinarith
    · have : d * r ≤ 0 := mul_nonpos_of_nonpos_of_nonneg hdn.le h2
      rw [hTpi]
      nlinarith
  have hx0 : 0 ≤ a - d * r + TAU := by linarith
  exact rfmod_bounds (a - d * r + TAU) TAU hT hx0

/-- Witness for C10 at `initial_angle = 0`, `target_angle = 0`,
`nudge_ratio = 0`. -/
theorem claim_C10_witness : 0 ≤ nudge_angle 0 0 0 ∧ nudge_angle 0 0 0 < TAU :=
  claim_C10_nudge_angle_range 0 0 0 (le_refl 0) TAU_pos (le_refl 0) zero_le_one

/-- Helper: for a positive admission rate, the source admission loop (guard
`time_elapsed > admitted / rate`) and the spec admission loop (guard
`admitted < time_elapsed * rate`) coincide. -/
theorem admit_loops_eq (rate t : ℝ) (hr : 0 < rate) (nfin : ℕ) :
    ∀ (avail act : List Walker),
      updateActiveAux rate t avail act nfin = admitSpecAux rate t avail act nfin := by
  intro avail
  induction avail with
  | nil => intro act; rfl
  | cons p rest ih =>
    intro act
    simp only [updateActiveAux, admitSpecAux]
    have hcond : (((act.length + nfin : ℕ) : ℝ) / rate < t) ↔
        (((act.length + nfin : ℕ) : ℝ) < t * rate) := div_lt_iff₀ hr
    by_cases hc : ((act.length + nfin : ℕ) : ℝ) / rate < t
    · rw [if_pos hc, if_pos (hcond.mp hc), ih]
    · rw [if_neg hc, if_neg (fun h => hc (hcond.mpr h))]

/-- C1: on every `CrowdSim::simulate_timestep` call, agents are admitted
first (before any agent update), one at a time from the tail of the
available pool, exactly while the available pool is non-empty and the
cumulative admitted count `active + finished` is below
`elapsed_time * admission_rate`: `update_active` equals the spec-worded
admission loop `admitSpecAux`, and `simulate_timestep` runs it before the
per-agent updates and the finished-pool re-partition. -/
theorem claim_C1_admission_policy (s : CrowdSim) (time_scale : ℝ) (ns : ℕ → ℝ × ℝ)
    (hr : 0 < s.pedestrian_add_rate) :
    s.update_active = { s with
      available_pedestrians := (admitSpecAux s.pedestrian_add_rate s.time_elapsed
        s.available_pedestrians.reverse s.active_pedestrians
        s.finished_pedestrians.length).1.reverse,
      active_pedestrians := (admitSpecAux s.pedestrian_add_rate s.time_elapsed
        s.available_pedestrians.reverse s.active_pedestrians
        s.finished_pedestrians.length).2 } ∧
    s.simulate_timestep time_scale ns =
      (CrowdSim.tickAgents time_scale ns s.update_active).update_finished := by
  constructor
  · simp only [CrowdSim.update_active]
    rw [admit_loops_eq s.pedestrian_add_rate s.time_elapsed hr]
  · rfl

/-- Witness for C1 at the concrete scheduler `simOne` (one queued pedestrian,
rate 1, elapsed time 1). -/
theorem claim_C1_witness :
    simOne.update_active = { simOne with
      available_pedestrians := (admitSpecAux simOne.pedestrian_add_rate simOne.time_elapsed
        simOne.available_pedestrians.reverse simOne.active_pedestrians
        simOne.finished_pedestrians.length).1.reverse,
      active_pedestrians := (admitSpecAux simOne.pedestrian_add_rate simOne.time_elapsed
        simOne.available_pedestrians.reverse simOne.active_pedestrians
        simOne.finished_pedestrians.length).2 } :=
  (claim_C1_admission_policy simOne 1 (fun _ => (0, 0))
    (by show (0 : ℝ) < 1; norm_num)).1

/-- Helper: the admission loop moves agents between the two pools without
creating or dropping any. -/
theorem updateActiveAux_length (rate t : ℝ) (nfin : ℕ) :
    ∀ (avail act : List Walker),
      (updateActiveAux rate t avail act nfin).1.length +
        (updateActiveAux rate t avail act nfin).2.length = avail.length + act.length := by
  intro avail
  induction avail with
  | nil => intro act; simp [updateActiveAux]
  | cons p rest ih =>
    intro act
    simp only [updateActiveAux]
    by_cases hc : ((act.length + nfin : ℕ) : ℝ) / rate < t
    · rw [if_pos hc, ih (act ++ [p])]
      simp only [List.length_append, List.length_cons, List.length_nil]
      omega
    · rw [if_neg hc]

/-- Helper: `update_active` preserves the total pool size. -/
theorem update_active_total (s : CrowdSim) : totalWalkers s.update_active = totalWalkers s := by
  simp only [CrowdSim.update_active, totalWalkers]
  have := updateActiveAux_length s.pedestrian_add_rate s.time_elapsed
    s.finished_pedestrians.length s.available_pedestrians.reverse s.active_pedestrians
  simp only [List.length_reverse] at this ⊢
  omega

/-- Helper: the finished-pool split preserves the number of agents. -/
theorem finishSplit_length (l : List Walker) :
    (finishSplit l).1.length + (finishSplit l).2.length = l.length := by
  induction l with
  | nil => simp [finishSplit]
  | cons p rest ih =>
    simp only [finishSplit]
    by_cases hc : reachedDest p
    · rw [if_pos hc]
      simp only [List.length_cons]
      omega
    · rw [if_neg hc]
      simp only [List.length_cons]
      omega

/-- Helper: `update_finished` preserves the total pool size. -/
theorem update_finished_total (s : CrowdSim) :
    totalWalkers s.update_finished = totalWalkers s := by
  simp only [CrowdSim.update_finished, totalWalkers, List.length_append]
  have := finishSplit_length s.active_pedestrians
  omega

/-- Helper: the per-agent update stage preserves the total pool size. -/
theorem tickAgents_total (time_scale : ℝ) (ns : ℕ → ℝ × ℝ) (s1 : CrowdSim) :
    totalWalkers (CrowdSim.tickAgents time_scale ns s1) = totalWalkers s1 := by
  simp [CrowdSim.tickAgents, totalWalkers, List.length_mapIdx]

/-- Helper: one simulated tick preserves the total pool size. -/
theorem simulate_timestep_total (s : CrowdSim) (time_scale : ℝ) (ns : ℕ → ℝ × ℝ) :
    totalWalkers (s.simulate_timestep time_scale ns) = totalWalkers s := by
  simp only [CrowdSim.simulate_timestep]
  rw [update_finished_total, tickAgents_total, update_active_total]

/-- Helper: iterated ticks preserve the total pool size. -/
theorem simIter_total (time_scale : ℝ) (nss : ℕ → ℕ → ℝ × ℝ) :
    ∀ (n : ℕ) (s : CrowdSim),
      totalWalkers (CrowdSim.simIter time_scale nss n s) = totalWalkers s := by
  intro n
  induction n with
  | zero => intro s; rfl
  | succ m ih =>
    intro s
    simp only [CrowdSim.simIter]
    rw [ih, simulate_timestep_total]

/-- Helper: `add_pedestrian` adds exactly one agent (to the available pool). -/
theorem add_pedestrian_total (s : CrowdSim) (g a b : ℕ) (tspd : ℝ) (e : Etiquette) :
    totalWalkers (s.add_pedestrian g a b tspd e) = totalWalkers s + 1 := by
  simp only [CrowdSim.add_pedestrian, totalWalkers, List.length_append, List.length_singleton]
  omega

/-- Helper: `add_pedestrian_set` adds exactly `count` agents. -/
theorem add_pedestrian_set_total :
    ∀ (count : ℕ) (s : CrowdSim) (g : ℕ) (e : Etiquette) (draws : ℕ → ℕ × ℕ × ℝ),
      totalWalkers (s.add_pedestrian_set count g e draws) = totalWalkers s + count := by
  intro count
  induction count with
  | zero => intro s g e draws; rfl
  | succ m ih =>
    intro s g e draws
    simp only [CrowdSim.add_pedestrian_set]
    rw [ih, add_pedestrian_total]
    omega

/-- Helper: a sequence of construction calls adds exactly the sum of its
per-call agent counts. -/
theorem applyOps_total :
    ∀ (ops : List AddOp) (s : CrowdSim),
      totalWalkers (s.applyOps ops) = totalWalkers s + (ops.map AddOp.agents).sum := by
  intro ops
  induction ops with
  | nil => intro s; simp [CrowdSim.applyOps]
  | cons op rest ih =>
    intro s
    simp only [CrowdSim.applyOps, List.foldl_cons, List.map_cons, List.sum_cons]
    have hstep : totalWalkers (s.applyOp op) = totalWalkers s + op.agents := by
      cases op with
      | one g a b tspd e => exact add_pedestrian_total s g a b tspd e
      | set n g e draws => exact add_pedestrian_set_total n s g e draws
    have := ih (s.applyOp op)
    simp only [CrowdSim.applyOps] at this
    rw [this, hstep]
    omega

/-- C2: for every sequence of `add_pedestrian` / `add_pedestrian_set` calls
followed by any number of `simulate_timestep` calls, after every tick the
sum of the available, active and finished pool sizes equals the total number
of agents added (each agent sits in exactly one of the three pools). -/
theorem claim_C2_pool_conservation (area : SimArea) (rate : ℝ) (ops : List AddOp)
    (time_scale : ℝ) (nss : ℕ → ℕ → ℝ × ℝ) (n : ℕ) :
    totalWalkers (CrowdSim.simIter time_scale nss n ((CrowdSim.new area rate).applyOps ops)) =
      (ops.map AddOp.agents).sum := by
  rw [simIter_total, applyOps_total]
  simp [CrowdSim.new, totalWalkers]

/-- Helper: the finished-pool split is the order-preserving partition of the
active pool by the reached-destination test. -/
theorem finishSplit_eq_filter (l : List Walker) :
    finishSplit l = (l.filter (fun p => decide (¬ reachedDest p)),
      l.filter (fun p => decide (reachedDest p))) := by
  induction l with
  | nil => rfl
  | cons p rest ih =>
    simp only [finishSplit, List.filter_cons, ih]
    by_cases hc : reachedDest p
    · simp [hc]
    · simp [hc]

/-- Helper: the finished pool after one tick is the old finished pool with
the newly arrived agents appended (old entries untouched, in order). -/
theorem simulate_timestep_finished (s : CrowdSim) (time_scale : ℝ) (ns : ℕ → ℝ × ℝ) :
    (s.simulate_timestep time_scale ns).finished_pedestrians =
      s.finished_pedestrians ++
        (finishSplit (CrowdSim.tickAgents time_scale ns s.update_active).active_pedestrians).2 := by
  rfl

/-- Helper: across any number of ticks the finished pool only ever grows by
appending; the initial finished entries are never modified. -/
theorem simIter_finished_extends (time_scale : ℝ) (nss : ℕ → ℕ → ℝ × ℝ) :
    ∀ (n : ℕ) (s : CrowdSim), ∃ tl,
      (CrowdSim.simIter time_scale nss n s).finished_pedestrians =
        s.finished_pedestrians ++ tl := by
  intro n
  induction n with
  | zero => intro s; exact ⟨[], (List.append_nil _).symm⟩
  | succ m ih =>
    intro s
    obtain ⟨tl, htl⟩ := ih (s.simulate_timestep time_scale (nss m))
    refine ⟨(finishSplit (CrowdSim.tickAgents time_scale (nss m)
      s.update_active).active_pedestrians).2 ++ tl, ?_⟩
    simp only [CrowdSim.simIter]
    rw [htl, simulate_timestep_finished, List.append_assoc]

/-- C7: an agent whose distance to its destination drops below the arrival
radius by the end of a tick is moved from the active pool to the finished
pool in that tick's `update_finished` (exactly once: it is removed from the
active pool and appended to the finished pool by the order-preserving
partition), and agents already in the finished pool are never modified by
any subsequent `simulate_timestep` call (the finished pool only grows by
appending). -/
theorem claim_C7_arrival_idempotence (s : CrowdSim) (time_scale : ℝ) (ns : ℕ → ℝ × ℝ)
    (nss : ℕ → ℕ → ℝ × ℝ) :
    ((s.simulate_timestep time_scale ns).finished_pedestrians =
      s.finished_pedestrians ++
        (CrowdSim.tickAgents time_scale ns s.update_active).active_pedestrians.filter
          (fun p => decide (reachedDest p))) ∧
    ((s.simulate_timestep time_scale ns).active_pedestrians =
      (CrowdSim.tickAgents time_scale ns s.update_active).active_pedestrians.filter
        (fun p => decide (¬ reachedDest p))) ∧
    (∀ n, ∃ tl, (CrowdSim.simIter time_scale nss n s).finished_pedestrians =
      s.finished_pedestrians ++ tl) := by
  refine ⟨?_, ?_, fun n => simIter_finished_extends time_scale nss n s⟩
  · rw [simulate_timestep_finished, finishSplit_eq_filter]
  · show (finishSplit (CrowdSim.tickAgents time_scale ns s.update_active).active_pedestrians).1 = _
    rw [finishSplit_eq_filter]

/-- Counterexample to C9: constructing a wall or timing gate with coincident
endpoints does not fail — `Wall::new` is a plain constructor and
`add_wall` / `add_timing_boundary` are plain pushes, so the degenerate
segment is accepted silently, contradicting the claim that construction
fails fatally. -/
theorem claim_C9_counterexample :
    (SimArea.new.add_wall (1, 1) (1, 1)).boundaries = [Wall.new 1 1 1 1] ∧
    (SimArea.new.add_timing_boundary (2, 3) (2, 3)).timing_boundaries = [Wall.new 2 3 2 3] :=
  ⟨rfl, rfl⟩

/-- C9 amended: neither `Wall::new` nor `SimArea::add_wall` /
`SimArea::add_timing_boundary` validates its endpoints; a wall with
coincident endpoints is appended to the environment exactly like any other
wall, with no construction-time failure. -/
theorem claim_C9_amended (a : SimArea) (x y : ℝ) :
    (a.add_wall (x, y) (x, y)).boundaries = a.boundaries ++ [Wall.new x y x y] ∧
    (a.add_timing_boundary (x, y) (x, y)).timing_boundaries =
      a.timing_boundaries ++ [Wall.new x y x y] ∧
    Wall.new x y x y = { x1 := x, y1 := y, x2 := x, y2 := y } :=
  ⟨rfl, rfl, rfl⟩

/-- Helper: `get_normal_vector` always returns the distance from `P` to the
branch-selected closest point together with the vector from that point to
`P` (on the `dist == 0` edge case the normal components are themselves
zero, so the uniform description covers it). -/
theorem get_normal_vector_eq (wl : Wall) (p : ℝ × ℝ) :
    wl.get_normal_vector p = (Real.sqrt (vec_dist_sq (wl.closest_point p) p),
      p.1 - (wl.closest_point p).1, p.2 - (wl.closest_point p).2) := by
  simp only [Wall.get_normal_vector]
  by_cases h : Real.sqrt (vec_dist_sq (wl.closest_point p) p) = 0
  · rw [if_pos h, h]
    have hnn : 0 ≤ vec_dist_sq (wl.closest_point p) p := by
      unfold vec_dist_sq
      nlinarith [mul_self_nonneg (p.1 - (wl.closest_point p).1),
        mul_self_nonneg (p.2 - (wl.closest_point p).2)]
    have h0 : vec_dist_sq (wl.closest_point p) p = 0 :=
      le_antisymm (Real.sqrt_eq_zero'.mp h) hnn
    unfold vec_dist_sq at h0
    have e1 : p.1 - (wl.closest_point p).1 = 0 := by
      nlinarith [sq_nonneg (p.1 - (wl.closest_point p).1), sq_nonneg (p.2 - (wl.closest_point p).2)]
    have e2 : p.2 - (wl.closest_point p).2 = 0 := by
      nlinarith [sq_nonneg (p.1 - (wl.closest_point p).1), sq_nonneg (p.2 - (wl.closest_point p).2)]
    rw [e1, e2]
  · rw [if_neg h]

/-- Helper: a non-degenerate segment has a positive squared length. -/
theorem ab_dot_pos (wl : Wall) (hnd : (wl.x1, wl.y1) ≠ (wl.x2, wl.y2)) :
    0 < vec_dot (wl.x2 - wl.x1, wl.y2 - wl.y1) (wl.x2 - wl.x1, wl.y2 - wl.y1) := by
  unfold vec_dot
  dsimp only
  have hne : wl.x2 - wl.x1 ≠ 0 ∨ wl.y2 - wl.y1 ≠ 0 := by
    by_contra hcon
    push_neg at hcon
    exact hnd (Prod.ext_iff.mpr ⟨by linarith [hcon.1], by linarith [hcon.2]⟩)
  rcases hne with h | h
  · nlinarith [mul_self_nonneg (wl.y2 - wl.y1), mul_self_pos.mpr h]
  · nlinarith [mul_self_nonneg (wl.x2 - wl.x1), mul_self_pos.mpr h]

/-- Helper: on a non-degenerate segment, the component-ratio `λ` of the
source equals the scalar projection, so the branch-selected closest point
is exactly the clamped-projection closest point of the spec. -/
theorem closest_point_eq_spec (wl : Wall) (p : ℝ × ℝ)
    (hnd : (wl.x1, wl.y1) ≠ (wl.x2, wl.y2)) :
    wl.closest_point p = wl.spec_closest p := by
  simp only [Wall.closest_point, Wall.spec_closest]
  set t := wl.sproj p with ht
  have hlam : (if |wl.y2 - wl.y1| < |wl.x2 - wl.x1| then
      (wl.x1 + (wl.x2 - wl.x1) * t - wl.x1) / (wl.x2 - wl.x1)
      else (wl.y1 + (wl.y2 - wl.y1) * t - wl.y1) / (wl.y2 - wl.y1)) = t := by
    by_cases hc : |wl.y2 - wl.y1| < |wl.x2 - wl.x1|
    · rw [if_pos hc]
      have hx : wl.x2 - wl.x1 ≠ 0 := by
        intro h0
        rw [h0] at hc
        simp only [abs_zero] at hc
        exact (abs_nonneg _).not_lt hc
      field_simp
    · rw [if_neg hc]
      have hy : wl.y2 - wl.y1 ≠ 0 := by
        intro h0
        rw [h0] at hc
        push_neg at hc
        simp at hc
        exact hnd (Prod.ext_iff.mpr ⟨by linarith [hc], by linarith⟩)
      field_simp
  rw [hlam]
  by_cases h0 : t ≤ 0
  · rw [if_pos h0]
    have hcl : min 1 (max 0 t) = 0 := by
      rw [max_eq_left h0, min_eq_right zero_le_one]
    rw [hcl]
    exact Prod.ext_iff.mpr ⟨by ring, by ring⟩
  · rw [if_neg h0]
    push_neg at h0
    by_cases h1 : 1 ≤ t
    · rw [if_pos h1]
      have hcl : min 1 (max 0 t) = 1 := by
        rw [max_eq_right h0.le, min_eq_left h1]
      rw [hcl]
      exact Prod.ext_iff.mpr ⟨by ring, by ring⟩
    · rw [if_neg h1]
      push_neg at h1
      have hcl : min 1 (max 0 t) = t := by
        rw [max_eq_right h0.le, min_eq_right h1.le]
      rw [hcl]

/-- Helper: `get_normal_vector` of the segment `(0,0)-(10,0)` at `(5,3)`. -/
theorem gnv_example_above : (Wall.new 0 0 10 0).get_normal_vector (5, 3) = (3, 0, 3) := by
  have hc : (Wall.new 0 0 10 0).closest_point (5, 3) = (5, 0) := by
    simp only [Wall.closest_point, Wall.sproj, vec_dot, Wall.new]
    norm_num
  have h9 : Real.sqrt (vec_dist_sq (5, 0) (5, 3)) = 3 := by
    apply sqrt_eval
    · norm_num
    · simp [vec_dist_sq]
  simp only [Wall.get_normal_vector, hc, h9]
  norm_num

/-- Helper: `get_normal_vector` of the segment `(0,0)-(10,0)` at `(-5,0)`
(clamped to the nearer endpoint). -/
theorem gnv_example_clamped : (Wall.new 0 0 10 0).get_normal_vector (-5, 0) = (5, -5, 0) := by
  have hc : (Wall.new 0 0 10 0).closest_point (-5, 0) = (0, 0) := by
    simp only [Wall.closest_point, Wall.sproj, vec_dot, Wall.new]
    norm_num
  have h25 : Real.sqrt (vec_dist_sq (0, 0) (-5, 0)) = 5 := by
    apply sqrt_eval
    · norm_num
    · simp [vec_dist_sq]
  simp only [Wall.get_normal_vector, hc, h25]
  norm_num

/-- Helper: on a non-degenerate segment, `get_normal_vector` returns the
distance to the clamped-projection closest point and the vector from it. -/
theorem gnv_spec (wl : Wall) (p : ℝ × ℝ) (hnd : (wl.x1, wl.y1) ≠ (wl.x2, wl.y2)) :
    wl.get_normal_vector p = (Real.sqrt (vec_dist_sq (wl.spec_closest p) p),
      p.1 - (wl.spec_closest p).1, p.2 - (wl.spec_closest p).2) := by
  rw [get_normal_vector_eq, closest_point_eq_spec wl p hnd]

/-- C3: for every non-degenerate segment and every point `P`,
`Wall::get_normal_vector` returns the Euclidean distance from `P` to the
closest point on the segment (projection parameter clamped to `[0,1]`, as
the spec words it in `spec_closest`) together with the vector from that
closest point to `P`; in particular, for the segment `(0,0)-(10,0)` it
returns distance 3 and normal `(0,3)` at `(5,3)`, and distance 5 and
normal `(-5,0)` at `(-5,0)`. -/
theorem claim_C3_segment_distance :
    (∀ (wl : Wall) (p : ℝ × ℝ), (wl.x1, wl.y1) ≠ (wl.x2, wl.y2) →
      wl.get_normal_vector p = (Real.sqrt (vec_dist_sq (wl.spec_closest p) p),
        p.1 - (wl.spec_closest p).1, p.2 - (wl.spec_closest p).2)) ∧
    (Wall.new 0 0 10 0).get_normal_vector (5, 3) = (3, 0, 3) ∧
    (Wall.new 0 0 10 0).get_normal_vector (-5, 0) = (5, -5, 0) := by
  exact ⟨gnv_spec, gnv_example_above, gnv_example_clamped⟩

/-- Witness for C3's universally quantified part at the segment
`(0,0)-(10,0)` and the point `(5,3)`. -/
theorem claim_C3_witness :
    (Wall.new 0 0 10 0).get_normal_vector (5, 3) =
      (Real.sqrt (vec_dist_sq ((Wall.new 0 0 10 0).spec_closest (5, 3)) (5, 3)),
        ((5 : ℝ), (3 : ℝ)).1 - ((Wall.new 0 0 10 0).spec_closest (5, 3)).1,
        ((5 : ℝ), (3 : ℝ)).2 - ((Wall.new 0 0 10 0).spec_closest (5, 3)).2) :=
  claim_C3_segment_distance.1 (Wall.new 0 0 10 0) (5, 3)
    (by norm_num [Wall.new, Prod.ext_iff])

/-- Helper: the projection numerator of a point shifted along the vector
from a point of the segment's line with parameter `c`, as a ring identity. -/
theorem proj_num_shift (x1 y1 x2 y2 p1 p2 c k : ℝ) :
    (p1 + (p1 - (x1 + (x2 - x1) * c)) * k - x1) * (x2 - x1) +
      (p2 + (p2 - (y1 + (y2 - y1) * c)) * k - y1) * (y2 - y1) =
    (1 + k) * ((p1 - x1) * (x2 - x1) + (p2 - y1) * (y2 - y1)) -
      k * c * ((x2 - x1) * (x2 - x1) + (y2 - y1) * (y2 - y1)) := by
  ring

/-- Helper: moving a point along the vector from its clamped closest point
scales its projection parameter offset from the clamp by the same factor. -/
theorem sproj_shift (wl : Wall) (p : ℝ × ℝ) (k : ℝ)
    (hnd : (wl.x1, wl.y1) ≠ (wl.x2, wl.y2)) :
    wl.sproj (p.1 + (p.1 - (wl.spec_closest p).1) * k,
        p.2 + (p.2 - (wl.spec_closest p).2) * k) =
      wl.sproj p + k * (wl.sproj p - min 1 (max 0 (wl.sproj p))) := by
  have hD := ab_dot_pos wl hnd
  unfold vec_dot at hD
  dsimp only at hD
  set c := min 1 (max 0 (wl.sproj p)) with hc
  have hsc : wl.spec_closest p =
      (wl.x1 + (wl.x2 - wl.x1) * c, wl.y1 + (wl.y2 - wl.y1) * c) := by
    rw [hc]
    rfl
  rw [hsc]
  dsimp only
  unfold Wall.sproj vec_dot
  dsimp only
  rw [proj_num_shift]
  field_simp
  ring

/-- Helper: the clamped projection parameter is unchanged by shifting the
parameter away from the clamp by a factor `1 + k > 0`. -/
theorem clamp_shift (t k : ℝ) (hk : 0 < 1 + k) :
    min 1 (max 0 (t + k * (t - min 1 (max 0 t)))) = min 1 (max 0 t) := by
  rcases le_or_lt t 0 with h0 | h0
  · have hc : min 1 (max 0 t) = 0 := by rw [max_eq_left h0, min_eq_right zero_le_one]
    rw [hc]
    have ht2 : t + k * (t - 0) ≤ 0 := by nlinarith
    rw [max_eq_left ht2, min_eq_right zero_le_one]
  · rcases le_or_lt 1 t with h1 | h1
    · have hc : min 1 (max 0 t) = 1 := by rw [max_eq_right h0.le, min_eq_left h1]
      rw [hc]
      have ht2 : 1 ≤ t + k * (t - 1) := by nlinarith
      rw [max_eq_right (by linarith : (0 : ℝ) ≤ t + k * (t - 1)), min_eq_left ht2]
    · have hc : min 1 (max 0 t) = t := by rw [max_eq_right h0.le, min_eq_right h1.le]
      rw [hc]
      have ht2 : t + k * (t - t) = t := by ring
      rw [ht2, hc]

/-- Helper: the clamped closest point is unchanged by moving the query point
along its normal direction by a factor `1 + k > 0`. -/
theorem spec_closest_shift (wl : Wall) (p : ℝ × ℝ) (k : ℝ)
    (hnd : (wl.x1, wl.y1) ≠ (wl.x2, wl.y2)) (hk : 0 < 1 + k) :
    wl.spec_closest (p.1 + (p.1 - (wl.spec_closest p).1) * k,
        p.2 + (p.2 - (wl.spec_closest p).2) * k) = wl.spec_closest p := by
  have hs := sproj_shift wl p k hnd
  conv_lhs => rw [Wall.spec_closest]
  rw [hs, clamp_shift (wl.sproj p) k hk]
  rfl

/-- Helper: squared distances scale with the square of the shift factor. -/
theorem vec_dist_sq_shift (c p : ℝ × ℝ) (k : ℝ) :
    vec_dist_sq c (p.1 + (p.1 - c.1) * k, p.2 + (p.2 - c.2) * k) =
      (1 + k) * (1 + k) * vec_dist_sq c p := by
  unfold vec_dist_sq
  dsimp only
  ring

/-- Helper: the position written by `wallBody` in its collision branch. -/
theorem wallBody_pos (time_scale : ℝ) (dn : ℝ × ℝ × ℝ) (na : ℝ) (w : Walker)
    (h : dn.1 < PEDESTRIAN_RADIUS) :
    (wallBody time_scale dn na w).x = w.x + dn.2.1 * (PEDESTRIAN_RADIUS / dn.1 - 1) ∧
    (wallBody time_scale dn na w).y = w.y + dn.2.2 * (PEDESTRIAN_RADIUS / dn.1 - 1) := by
  unfold wallBody
  rw [if_pos h]
  dsimp only
  constructor
  · split_ifs <;> rfl
  · split_ifs <;> rfl

/-- C4: for every non-degenerate obstacle wall and every agent whose distance
`d` to that wall satisfies `0 < d <` body radius, after the wall-collision
loop body processes that wall the agent's distance to the wall is exactly
the body radius `PEDESTRIAN_RADIUS`. -/
theorem claim_C4_wall_pushout (g : Wall) (w : Walker) (time_scale : ℝ)
    (hnd : (g.x1, g.y1) ≠ (g.x2, g.y2))
    (h0 : 0 < (g.get_normal_vector (w.x, w.y)).1)
    (h1 : (g.get_normal_vector (w.x, w.y)).1 < PEDESTRIAN_RADIUS) :
    (g.get_normal_vector
      ((wallBody time_scale (g.get_normal_vector (w.x, w.y))
          (atan2 (g.get_normal_vector (w.x, w.y)).2.2 (g.get_normal_vector (w.x, w.y)).2.1) w).x,
        (wallBody time_scale (g.get_normal_vector (w.x, w.y))
          (atan2 (g.get_normal_vector (w.x, w.y)).2.2 (g.get_normal_vector (w.x, w.y)).2.1) w).y)).1 =
      PEDESTRIAN_RADIUS := by
  have hR : (0 : ℝ) < PEDESTRIAN_RADIUS := by unfold PEDESTRIAN_RADIUS; norm_num
  set dn := g.get_normal_vector (w.x, w.y) with hdn
  have hspec := gnv_spec g (w.x, w.y) hnd
  have hd1 : dn.1 = Real.sqrt (vec_dist_sq (g.spec_closest (w.x, w.y)) (w.x, w.y)) := by
    rw [hdn, hspec]
  have hd21 : dn.2.1 = w.x - (g.spec_closest (w.x, w.y)).1 := by rw [hdn, hspec]
  have hd22 : dn.2.2 = w.y - (g.spec_closest (w.x, w.y)).2 := by rw [hdn, hspec]
  obtain ⟨hx, hy⟩ := wallBody_pos time_scale dn (atan2 dn.2.2 dn.2.1) w h1
  set k := PEDESTRIAN_RADIUS / dn.1 - 1 with hk
  have h1k : 1 + k = PEDESTRIAN_RADIUS / dn.1 := by rw [hk]; ring
  have hkpos : 0 < 1 + k := by
    rw [h1k]
    exact div_pos hR h0
  rw [hx, hy, hd21, hd22, gnv_spec g _ hnd]
  dsimp only
  have hq := spec_closest_shift g (w.x, w.y) k hnd hkpos
  dsimp only at hq
  rw [hq]
  have hvs := vec_dist_sq_shift (g.spec_closest (w.x, w.y)) (w.x, w.y) k
  dsimp only at hvs
  rw [hvs]
  rw [show (1 + k) * (1 + k) * vec_dist_sq (g.spec_closest (w.x, w.y)) (w.x, w.y) =
    ((1 + k) * (1 + k)) * vec_dist_sq (g.spec_closest (w.x, w.y)) (w.x, w.y) from by ring]
  rw [Real.sqrt_mul (by positivity) _]
  rw [show (1 + k) * (1 + k) = (1 + k) ^ 2 from by ring, Real.sqrt_sq hkpos.le]
  rw [← hd1, h1k]
  field_simp

/-- Helper: the normal-vector query of the wall `(0,0)-(10,0)` at the
position of `walkerTouch`. -/
theorem gnv_walkerTouch :
    (Wall.new 0 0 10 0).get_normal_vector (walkerTouch.x, walkerTouch.y) =
      (1 / 10, 0, 1 / 10) := by
  have hxy : (walkerTouch.x, walkerTouch.y) = ((5 : ℝ), (1 / 10 : ℝ)) := rfl
  rw [hxy]
  have hc : (Wall.new 0 0 10 0).closest_point (5, 1 / 10) = (5, 0) := by
    simp only [Wall.closest_point, Wall.sproj, vec_dot, Wall.new]
    norm_num
  have hs : Real.sqrt (vec_dist_sq (5, 0) (5, 1 / 10)) = 1 / 10 := by
    apply sqrt_eval
    · norm_num
    · simp [vec_dist_sq]
  simp only [Wall.get_normal_vector, hc, hs]
  norm_num

/-- Witness for C4: the horizontal wall `(0,0)-(10,0)` and an agent at
`(5, 0.1)` (distance `0.1`, inside the body radius `0.205`). -/
theorem claim_C4_witness :
    ((Wall.new 0 0 10 0).get_normal_vector
      ((wallBody 1 ((Wall.new 0 0 10 0).get_normal_vector (walkerTouch.x, walkerTouch.y))
          (atan2 ((Wall.new 0 0 10 0).get_normal_vector (walkerTouch.x, walkerTouch.y)).2.2
            ((Wall.new 0 0 10 0).get_normal_vector (walkerTouch.x, walkerTouch.y)).2.1)
          walkerTouch).x,
        (wallBody 1 ((Wall.new 0 0 10 0).get_normal_vector (walkerTouch.x, walkerTouch.y))
          (atan2 ((Wall.new 0 0 10 0).get_normal_vector (walkerTouch.x, walkerTouch.y)).2.2
            ((Wall.new 0 0 10 0).get_normal_vector (walkerTouch.x, walkerTouch.y)).2.1)
          walkerTouch).y)).1 = PEDESTRIAN_RADIUS := by
  apply claim_C4_wall_pushout (Wall.new 0 0 10 0) walkerTouch 1
    (by norm_num [Wall.new, Prod.ext_iff])
  · rw [gnv_walkerTouch]
    norm_num
  · rw [gnv_walkerTouch]
    unfold PEDESTRIAN_RADIUS
    norm_num

/-- Helper: the first wall of `envTwoWalls` has distance zero from
`walkerOnWall` (the agent lies exactly on it). -/
theorem gnv_onwall :
    (Wall.new 0 0 10 0).get_normal_vector (walkerOnWall.x, walkerOnWall.y) = (0, 0, 0) := by
  have hxy : (walkerOnWall.x, walkerOnWall.y) = ((5 : ℝ), (0 : ℝ)) := rfl
  rw [hxy]
  have hc : (Wall.new 0 0 10 0).closest_point (5, 0) = (5, 0) := by
    simp only [Wall.closest_point, Wall.sproj, vec_dot, Wall.new]
    norm_num
  have hs : Real.sqrt (vec_dist_sq (5, 0) (5, 0)) = 0 := by
    apply sqrt_eval
    · norm_num
    · simp [vec_dist_sq]
  simp only [Wall.get_normal_vector, hc, hs]
  norm_num

/-- Helper: the second wall of `envTwoWalls` has distance `0.1` from
`walkerOnWall`, with normal `(-0.1, 0)`. -/
theorem gnv_secondwall :
    (Wall.new (51 / 10) (-1) (51 / 10) 1).get_normal_vector (walkerOnWall.x, walkerOnWall.y) =
      (1 / 10, -(1 / 10), 0) := by
  have hxy : (walkerOnWall.x, walkerOnWall.y) = ((5 : ℝ), (0 : ℝ)) := rfl
  rw [hxy]
  have hc : (Wall.new (51 / 10) (-1) (51 / 10) 1).closest_point (5, 0) = (51 / 10, 0) := by
    simp only [Wall.closest_point, Wall.sproj, vec_dot, Wall.new]
    norm_num
  have hs : Real.sqrt (vec_dist_sq (51 / 10, 0) (5, 0)) = 1 / 10 := by
    apply sqrt_eval
    · norm_num
    · simp [vec_dist_sq]
      norm_num
  simp only [Wall.get_normal_vector, hc, hs]
  norm_num

/-- C8 amended: when the first wall the loop reaches is at distance exactly
zero, `resolve_wall_collisions` performs no adjustment at all and no
division by zero — but it `return`s from the whole function, so the
remaining walls of the environment are skipped for that tick (the walker is
returned entirely unchanged no matter what the remaining walls are). -/
theorem claim_C8_amended (w : Walker) (time_scale : ℝ) (g : Wall) (gs : List Wall)
    (hb : w.environment.boundaries = g :: gs)
    (h0 : (g.get_normal_vector (w.x, w.y)).1 = 0) :
    w.resolve_wall_collisions time_scale = w := by
  unfold Walker.resolve_wall_collisions
  rw [hb]
  simp only [resolveAux]
  rw [if_pos h0]

/-- Witness for C8 amended: `walkerOnWall` lies exactly on the first wall of
its two-wall environment, and wall resolution leaves it unchanged. -/
theorem claim_C8_witness : walkerOnWall.resolve_wall_collisions 1 = walkerOnWall :=
  claim_C8_amended walkerOnWall 1 (Wall.new 0 0 10 0)
    [Wall.new (51 / 10) (-1) (51 / 10) 1] rfl (by rw [gnv_onwall])

/-- Counterexample to C8: `walkerOnWall` lies at distance zero from the
first wall of its environment and at distance `0.1 <` body radius from the
second wall; the claim says every other wall is still processed normally,
but `resolve_wall_collisions` returns the walker completely unchanged (it
still overlaps the second wall), whereas processing the second wall's loop
body would have moved the agent. -/
theorem claim_C8_counterexample :
    walkerOnWall.resolve_wall_collisions 1 = walkerOnWall ∧
    0 < ((Wall.new (51 / 10) (-1) (51 / 10) 1).get_normal_vector
      (walkerOnWall.x, walkerOnWall.y)).1 ∧
    ((Wall.new (51 / 10) (-1) (51 / 10) 1).get_normal_vector
      (walkerOnWall.x, walkerOnWall.y)).1 < PEDESTRIAN_RADIUS ∧
    (wallBody 1 ((Wall.new (51 / 10) (-1) (51 / 10) 1).get_normal_vector
        (walkerOnWall.x, walkerOnWall.y))
      (atan2 ((Wall.new (51 / 10) (-1) (51 / 10) 1).get_normal_vector
          (walkerOnWall.x, walkerOnWall.y)).2.2
        ((Wall.new (51 / 10) (-1) (51 / 10) 1).get_normal_vector
          (walkerOnWall.x, walkerOnWall.y)).2.1)
      walkerOnWall).x ≠ walkerOnWall.x := by
  have hR : PEDESTRIAN_RADIUS = 0.205 := rfl
  refine ⟨?_, ?_, ?_, ?_⟩
  · unfold Walker.resolve_wall_collisions
    show resolveAux 1 [Wall.new 0 0 10 0, Wall.new (51 / 10) (-1) (51 / 10) 1] walkerOnWall =
      walkerOnWall
    simp only [resolveAux]
    rw [if_pos (by rw [gnv_onwall])]
  · rw [gnv_secondwall]
    norm_num
  · rw [gnv_secondwall, hR]
    norm_num
  · have hlt : ((Wall.new (51 / 10) (-1) (51 / 10) 1).get_normal_vector
        (walkerOnWall.x, walkerOnWall.y)).1 < PEDESTRIAN_RADIUS := by
      rw [gnv_secondwall, hR]
      norm_num
    have hx := (wallBody_pos 1 ((Wall.new (51 / 10) (-1) (51 / 10) 1).get_normal_vector
      (walkerOnWall.x, walkerOnWall.y))
      (atan2 ((Wall.new (51 / 10) (-1) (51 / 10) 1).get_normal_vector
          (walkerOnWall.x, walkerOnWall.y)).2.2
        ((Wall.new (51 / 10) (-1) (51 / 10) 1).get_normal_vector
          (walkerOnWall.x, walkerOnWall.y)).2.1)
      walkerOnWall hlt).1
    rw [hx, gnv_secondwall, hR]
    have hwx : walkerOnWall.x = 5 := rfl
    rw [hwx]
    norm_num

/-- Helper: `walkerGate` touches the first timing gate (distance zero). -/
theorem gnv_gate1 :
    (Wall.new 3 0 3 6).get_normal_vector (walkerGate.x, walkerGate.y) = (0, 0, 0) := by
  have hxy : (walkerGate.x, walkerGate.y) = ((3 : ℝ), (2 : ℝ)) := rfl
  rw [hxy]
  have hc : (Wall.new 3 0 3 6).closest_point (3, 2) = (3, 2) := by
    simp only [Wall.closest_point, Wall.sproj, vec_dot, Wall.new]
    norm_num
  have hs : Real.sqrt (vec_dist_sq (3, 2) (3, 2)) = 0 := by
    apply sqrt_eval
    · norm_num
    · simp [vec_dist_sq]
  simp only [Wall.get_normal_vector, hc, hs]
  norm_num

/-- Helper: the gate-marking scan of `walkerGate` marks the first gate
(distance zero, not yet crossed), keeps the second marked, and counts two
touched gates. -/
theorem scan_walkerGate :
    scanGates (walkerGate.x, walkerGate.y) [Wall.new 3 0 3 6, Wall.new 28 0 28 6]
      [false, true] = ([true, true], 2, true) := by
  simp only [scanGates, List.headD, List.tail, gnv_gate1]
  norm_num [PEDESTRIAN_RADIUS]

/-- Helper: evaluation of `check_timing_boundaries` on `walkerGate`: both
gates now marked, sample `1.1` emitted, elapsed timer cleared — but the
crossed flags are left `[true, true]`, not reset. -/
theorem checkGate_eval :
    walkerGate.check_timing_boundaries (1 / 10) = (walkerGateDone, some (11 / 10)) := by
  unfold Walker.check_timing_boundaries
  have h1 : walkerGate.timing_boundary_elapsed = some 1 := rfl
  have h2 : walkerGate.timing_boundary_states = [false, true] := rfl
  have h3 : walkerGate.environment.timing_boundaries =
      [Wall.new 3 0 3 6, Wall.new 28 0 28 6] := rfl
  rw [h1, h2, h3, scan_walkerGate]
  norm_num
  rfl

/-- Helper: a second `check_timing_boundaries` call on the post-emission
walker emits nothing (flags are still set, the elapsed timer stays `none`). -/
theorem checkGate_eval2 :
    (walkerGateDone.check_timing_boundaries (1 / 10)).2 = none := by
  unfold Walker.check_timing_boundaries
  have h1 : walkerGateDone.timing_boundary_elapsed = none := rfl
  have h2 : walkerGateDone.timing_boundary_states = [true, true] := rfl
  have h3 : walkerGateDone.environment.timing_boundaries =
      [Wall.new 3 0 3 6, Wall.new 28 0 28 6] := rfl
  have hscan : scanGates (walkerGateDone.x, walkerGateDone.y)
      [Wall.new 3 0 3 6, Wall.new 28 0 28 6] [true, true] = ([true, true], 2, false) := by
    simp only [scanGates, List.headD, List.tail]
    norm_num
  rw [h1, h2, h3, hscan]
  rfl

/-- Helper: the gate-marking scan never clears a crossed flag: a gate marked
before the scan is still marked after it. -/
theorem scanGates_mono (pos : ℝ × ℝ) :
    ∀ (gs : List Wall) (sts : List Bool) (i : ℕ),
      sts.getD i false = true → (scanGates pos gs sts).1.getD i false = true := by
  intro gs
  induction gs with
  | nil =>
    intro sts i h
    simpa [scanGates] using h
  | cons g gs2 ih =>
    intro sts i h
    simp only [scanGates]
    cases i with
    | zero =>
      have hs0 : sts.headD false = true := by
        cases sts with
        | nil => simp at h
        | cons b bs => simpa using h
      simp only [List.getD_cons_zero]
      rw [hs0, Bool.true_or]
    | succ j =>
      have ht : sts.tail.getD j false = true := by
        cases sts with
        | nil => simp at h
        | cons b bs => simpa using h
      simp only [List.getD_cons_succ]
      exact ih sts.tail j ht

/-- Counterexample to C6: after `walkerGate` (second gate already crossed,
timer running) touches the first gate, exactly two gates are marked and a
sample is emitted — but the per-gate crossing state is left `[true, true]`
rather than being reset, and an immediately following call emits no second
measurement; the claimed reset that would "support repeat measurement" does
not happen. -/
theorem claim_C6_counterexample :
    (walkerGate.check_timing_boundaries (1 / 10)).1.timing_boundary_states = [true, true] ∧
    (walkerGate.check_timing_boundaries (1 / 10)).2 = some (11 / 10) ∧
    ((walkerGate.check_timing_boundaries (1 / 10)).1.check_timing_boundaries (1 / 10)).2 =
      none := by
  rw [checkGate_eval]
  exact ⟨rfl, rfl, checkGate_eval2⟩

/-- C6 amended: when exactly two timing gates are marked for an agent while
its gate timer is running, `check_timing_boundaries` emits the sample
(elapsed time since the first crossing; the caller attaches the group and
current simulation time) and clears the elapsed timer — but the per-gate
crossed flags are only ever extended by the scan (`scanGates`), never reset,
so the same pair of gates cannot produce another measurement. -/
theorem claim_C6_amended (w : Walker) (time_scale : ℝ) :
    ((w.check_timing_boundaries time_scale).1.timing_boundary_states =
      (scanGates (w.x, w.y) w.environment.timing_boundaries w.timing_boundary_states).1) ∧
    (∀ i, w.timing_boundary_states.getD i false = true →
      (w.check_timing_boundaries time_scale).1.timing_boundary_states.getD i false = true) ∧
    ((w.check_timing_boundaries time_scale).2.isSome = true →
      (w.check_timing_boundaries time_scale).1.timing_boundary_elapsed = none) := by
  have hstates : (w.check_timing_boundaries time_scale).1.timing_boundary_states =
      (scanGates (w.x, w.y) w.environment.timing_boundaries w.timing_boundary_states).1 := by
    unfold Walker.check_timing_boundaries
    dsimp only
    split <;> rfl
  refine ⟨hstates, ?_, ?_⟩
  · intro i h
    rw [hstates]
    exact scanGates_mono (w.x, w.y) w.environment.timing_boundaries
      w.timing_boundary_states i h
  · unfold Walker.check_timing_boundaries
    dsimp only
    split
    · intro _
      rfl
    · intro h
      simp at h

/-- Witness for C6 amended at `walkerGate`: the emission hypothesis holds
(`some 1.1` is emitted) and the elapsed timer is indeed cleared. -/
theorem claim_C6_witness :
    (walkerGate.check_timing_boundaries (1 / 10)).1.timing_boundary_elapsed = none :=
  (claim_C6_amended walkerGate (1 / 10)).2.2 (by rw [checkGate_eval]; rfl)

/-- Helper: reacting to an empty neighbour snapshot changes nothing. -/
theorem react_nil (w : Walker) (time_scale : ℝ) : w.react_to_neighbours time_scale [] = w := rfl

/-- Helper: reacting to a single neighbour is one loop-body step. -/
theorem react_singleton (w : Walker) (time_scale : ℝ) (nb : ℝ × ℝ × ℝ) :
    w.react_to_neighbours time_scale [nb] = neighbourStep time_scale w nb := rfl

/-- Helper: the hitbox block never changes the agent's etiquette. -/
theorem collideStep_etq (dist nangle : ℝ) (w : Walker) :
    (collideStep dist nangle w).etiquette = w.etiquette := by
  unfold collideStep
  split_ifs <;> rfl

/-- Helper: the right-beside block never changes the agent's etiquette. -/
theorem besideRightStep_etq (time_scale dist tra : ℝ) (w : Walker) :
    (besideRightStep time_scale dist tra w).etiquette = w.etiquette := by
  unfold besideRightStep
  split_ifs <;> rfl

/-- Helper: the left-beside block never changes the agent's etiquette. -/
theorem besideLeftStep_etq (time_scale dist tra : ℝ) (w : Walker) :
    (besideLeftStep time_scale dist tra w).etiquette = w.etiquette := by
  unfold besideLeftStep
  split_ifs <;> rfl

/-- Helper: the oncoming branch never changes the agent's etiquette. -/
theorem oncomingStep_etq (time_scale nangle : ℝ) (w : Walker) :
    (oncomingStep time_scale nangle w).etiquette = w.etiquette := by
  unfold oncomingStep
  split_ifs <;> rfl

/-- Helper: the front-view block never changes the agent's etiquette. -/
theorem frontStep_etq (time_scale dist nangle ndir : ℝ) (w : Walker) :
    (frontStep time_scale dist nangle ndir w).etiquette = w.etiquette := by
  unfold frontStep
  dsimp only
  split_ifs <;> simp only [oncomingStep_etq]

/-- Helper: the personal-space block never changes the agent's etiquette. -/
theorem pspaceStep_etq (time_scale dist nangle : ℝ) (w : Walker) :
    (pspaceStep time_scale dist nangle w).etiquette = w.etiquette := by
  unfold pspaceStep
  split_ifs <;> rfl

/-- Helper: the neighbour loop body never changes the agent's etiquette. -/
theorem neighbourStep_etq (time_scale : ℝ) (w : Walker) (nb : ℝ × ℝ × ℝ) :
    (neighbourStep time_scale w nb).etiquette = w.etiquette := by
  unfold neighbourStep
  dsimp only
  rw [pspaceStep_etq, frontStep_etq, besideLeftStep_etq, besideRightStep_etq, collideStep_etq]

/-- Helper: the neighbour reaction never changes the agent's etiquette. -/
theorem react_etq (time_scale : ℝ) :
    ∀ (nbs : List (ℝ × ℝ × ℝ)) (w : Walker),
      (w.react_to_neighbours time_scale nbs).etiquette = w.etiquette := by
  intro nbs
  induction nbs with
  | nil => intro w; rfl
  | cons nb rest ih =>
    intro w
    show ((neighbourStep time_scale w nb).react_to_neighbours time_scale rest).etiquette = _
    rw [ih, neighbourStep_etq]

/-- Helper: the hitbox block keeps the speed nonnegative (it zeroes it). -/
theorem collideStep_speed_nonneg (dist nangle : ℝ) (w : Walker) (h : 0 ≤ w.inst_speed) :
    0 ≤ (collideStep dist nangle w).inst_speed := by
  unfold collideStep
  split_ifs
  · exact le_refl 0
  · exact h

/-- Helper: the right-beside block never changes the speed. -/
theorem besideRightStep_speed (time_scale dist tra : ℝ) (w : Walker) :
    (besideRightStep time_scale dist tra w).inst_speed = w.inst_speed := by
  unfold besideRightStep
  split_ifs <;> rfl

/-- Helper: the left-beside block never changes the speed. -/
theorem besideLeftStep_speed (time_scale dist tra : ℝ) (w : Walker) :
    (besideLeftStep time_scale dist tra w).inst_speed = w.inst_speed := by
  unfold besideLeftStep
  split_ifs <;> rfl

/-- Helper: for an agent with a directional-bias etiquette, the oncoming
branch only turns the heading; the speed is untouched (the unclamped
deceleration sits in the `NoBias` branch only). -/
theorem oncomingStep_speed (time_scale nangle : ℝ) (w : Walker)
    (hetq : w.etiquette ≠ Etiquette.NoBias) :
    (oncomingStep time_scale nangle w).inst_speed = w.inst_speed := by
  unfold oncomingStep
  split_ifs with h1 h2
  · rfl
  · rfl
  · cases he : w.etiquette
    · exact absurd he h1
    · exact absurd he h2
    · exact absurd he hetq

/-- Helper: for an agent with a directional-bias etiquette, the front-view
block keeps the speed nonnegative (its decelerations are clamped at zero). -/
theorem frontStep_speed_nonneg (time_scale dist nangle ndir : ℝ) (w : Walker)
    (hetq : w.etiquette ≠ Etiquette.NoBias) (h : 0 ≤ w.inst_speed) :
    0 ≤ (frontStep time_scale dist nangle ndir w).inst_speed := by
  unfold frontStep
  dsimp only
  split_ifs <;>
    first
      | exact h
      | exact le_max_left 0 _
      | (rw [oncomingStep_speed time_scale nangle w hetq]; exact h)

/-- Helper: the personal-space block never changes the speed. -/
theorem pspaceStep_speed (time_scale dist nangle : ℝ) (w : Walker) :
    (pspaceStep time_scale dist nangle w).inst_speed = w.inst_speed := by
  unfold pspaceStep
  split_ifs <;> rfl

/-- Helper: for an agent with a directional-bias etiquette, every speed
change in the neighbour loop body is clamped at zero (the unclamped
subtraction sits in the `NoBias` oncoming branch only). -/
theorem neighbourStep_speed_nonneg (time_scale : ℝ) (w : Walker) (nb : ℝ × ℝ × ℝ)
    (hetq : w.etiquette ≠ Etiquette.NoBias) (h : 0 ≤ w.inst_speed) :
    0 ≤ (neighbourStep time_scale w nb).inst_speed := by
  unfold neighbourStep
  dsimp only
  rw [pspaceStep_speed]
  apply frontStep_speed_nonneg
  · rw [besideLeftStep_etq, besideRightStep_etq, collideStep_etq]
    exact hetq
  · rw [besideLeftStep_speed, besideRightStep_speed]
    exact collideStep_speed_nonneg _ _ _ h

/-- Helper: the neighbour reaction keeps the speed nonnegative for agents
with a directional-bias etiquette. -/
theorem react_speed_nonneg (time_scale : ℝ) :
    ∀ (nbs : List (ℝ × ℝ × ℝ)) (w : Walker), w.etiquette ≠ Etiquette.NoBias →
      0 ≤ w.inst_speed → 0 ≤ (w.react_to_neighbours time_scale nbs).inst_speed := by
  intro nbs
  induction nbs with
  | nil => intro w _ h; exact h
  | cons nb rest ih =>
    intro w hetq h
    show 0 ≤ ((neighbourStep time_scale w nb).react_to_neighbours time_scale rest).inst_speed
    exact ih (neighbourStep time_scale w nb)
      (by rw [neighbourStep_etq]; exact hetq)
      (neighbourStep_speed_nonneg time_scale w nb hetq h)

/-- Helper: the gate bookkeeping never changes the agent's speed. -/
theorem check_speed (w : Walker) (time_scale : ℝ) :
    ((w.check_timing_boundaries time_scale).1).inst_speed = w.inst_speed := by
  unfold Walker.check_timing_boundaries
  dsimp only
  split <;> rfl

/-- Helper: the per-wall collision body never changes the agent's speed. -/
theorem wallBody_speed (time_scale : ℝ) (dn : ℝ × ℝ × ℝ) (na : ℝ) (w : Walker) :
    (wallBody time_scale dn na w).inst_speed = w.inst_speed := by
  unfold wallBody
  dsimp only
  split_ifs <;> rfl

/-- Helper: the wall loop never changes the agent's speed. -/
theorem resolveAux_speed (time_scale : ℝ) :
    ∀ (gs : List Wall) (w : Walker),
      (resolveAux time_scale gs w).inst_speed = w.inst_speed := by
  intro gs
  induction gs with
  | nil => intro w; rfl
  | cons g gs2 ih =>
    intro w
    simp only [resolveAux]
    split
    · rfl
    · rw [ih, wallBody_speed]

/-- Helper: wall-collision resolution never changes the agent's speed. -/
theorem resolve_speed (w : Walker) (time_scale : ℝ) :
    (w.resolve_wall_collisions time_scale).inst_speed = w.inst_speed :=
  resolveAux_speed time_scale w.environment.boundaries w

/-- Helper: the speed written by `apply_noise`. -/
theorem noise_speed (w : Walker) (time_scale rdir rspd : ℝ) :
    (w.apply_noise time_scale rdir rspd).inst_speed =
      w.inst_speed + (2 * rspd - 1) * PEDESTRIAN_SPEED_NOISE_FACTOR * time_scale := rfl

/-- C5 amended: the same-direction and personal-space decelerations are
clamped at zero, and for an agent with a directional-bias etiquette
(`LeftBias`/`RightBias`), nonnegative target speed and a nonnegative
speed-noise sample (`rspd ≥ 1/2`, i.e. `2*rspd - 1 ≥ 0`), the speed is
still nonnegative after `Walker::simulate_timestep`; the unclamped stages
are exactly the `NoBias` oncoming deceleration and a negative speed-noise
sample, which the counterexample shows can drive the speed negative. -/
theorem claim_C5_amended (w : Walker) (time_scale rdir rspd : ℝ)
    (before after : List (ℝ × ℝ × ℝ))
    (hetq : w.etiquette ≠ Etiquette.NoBias) (htg : 0 ≤ w.target_speed)
    (hsp : 0 ≤ w.inst_speed) (hdt : 0 ≤ time_scale) (hns : 1 / 2 ≤ rspd) :
    0 ≤ (w.simulate_timestep time_scale before after rdir rspd).inst_speed := by
  unfold Walker.simulate_timestep
  dsimp only
  rw [check_speed, resolve_speed]
  dsimp only
  rw [noise_speed]
  have haccel : (0 : ℝ) ≤ PEDESTRIAN_ACCEL * time_scale := by
    unfold PEDESTRIAN_ACCEL
    nlinarith
  have hfac : (0 : ℝ) ≤ (2 * rspd - 1) * PEDESTRIAN_SPEED_NOISE_FACTOR * time_scale := by
    unfold PEDESTRIAN_SPEED_NOISE_FACTOR
    nlinarith
  apply add_nonneg _ hfac
  apply react_speed_nonneg
  · rw [react_etq]
    split_ifs <;> exact hetq
  · apply react_speed_nonneg
    · split_ifs <;> exact hetq
    · split_ifs <;> exact le_min htg (add_nonneg hsp haccel)

/-- Helper: `rfmod` drops whole positive multiples of `TAU`. -/
theorem rfmod_tau (c : ℝ) (k : ℤ) (h0 : 0 ≤ c) (h1 : c < TAU) (hk : 0 ≤ k) :
    rfmod (c + TAU * k) TAU = c := by
  have hT := TAU_pos
  have hkr : (0 : ℝ) ≤ (k : ℝ) := by exact_mod_cast hk
  have hx : 0 ≤ c + TAU * k := add_nonneg h0 (mul_nonneg hT.le hkr)
  have hq1 : (k : ℝ) ≤ (c + TAU * k) / TAU := by
    rw [le_div_iff₀ hT]
    nlinarith
  have hq2 : (c + TAU * k) / TAU < (k : ℝ) + 1 := by
    rw [div_lt_iff₀ hT]
    nlinarith
  rw [rfmod_eval _ _ k hT hx hq1 hq2]
  ring

/-- Helper: `atan2 0 x = 0` for positive `x` (as in Rust). -/
theorem atan2_zero_pos (x : ℝ) (h : 0 < x) : atan2 0 x = 0 := by
  unfold atan2
  rw [if_pos h, zero_div, Real.arctan_zero]

/-- Helper: nudging the zero angle towards the zero angle is a no-op, for
any nudge ratio. -/
theorem nudge_angle_zero (r : ℝ) : nudge_angle 0 0 r = 0 := by
  unfold nudge_angle
  dsimp only
  have h1 : (0 : ℝ) - 0 + TAU + π = π + TAU * ((1 : ℤ) : ℝ) := by
    push_cast
    ring
  rw [h1, rfmod_tau π 1 Real.pi_pos.le (by unfold TAU; linarith [Real.pi_pos]) (by norm_num)]
  have h2 : (0 : ℝ) - (π - π) * r + TAU = 0 + TAU * ((1 : ℤ) : ℝ) := by
    push_cast
    ring
  rw [h2, rfmod_tau 0 1 le_rfl TAU_pos (by norm_num)]

/-- Helper: the right-beside block is a no-op for a neighbour beyond the
look-beside radius. -/
theorem besideRightStep_far (time_scale dist tra : ℝ) (w : Walker)
    (h : ¬ dist < PEDESTRIAN_LOOK_BESIDE_RADIUS) :
    besideRightStep time_scale dist tra w = w := by
  unfold besideRightStep
  rw [if_neg (fun hc => h hc.1)]

/-- Helper: the left-beside block is a no-op for a neighbour beyond the
look-beside radius. -/
theorem besideLeftStep_far (time_scale dist tra : ℝ) (w : Walker)
    (h : ¬ dist < PEDESTRIAN_LOOK_BESIDE_RADIUS) :
    besideLeftStep time_scale dist tra w = w := by
  unfold besideLeftStep
  rw [if_neg (fun hc => h hc.1)]

/-- Helper: the `NoBias` oncoming branch subtracts `accel * dt / 2` from the
speed with no clamp at zero. -/
theorem oncomingStep_nobias (time_scale nangle : ℝ) (w : Walker)
    (he : w.etiquette = Etiquette.NoBias) :
    (oncomingStep time_scale nangle w).inst_speed =
      w.inst_speed - PEDESTRIAN_ACCEL * time_scale / 2 := by
  unfold oncomingStep
  rw [he]
  rw [if_neg (show ¬(Etiquette.NoBias = Etiquette.LeftBias) by decide)]
  rw [if_neg (show ¬(Etiquette.NoBias = Etiquette.RightBias) by decide)]

/-- Helper: a facing-east `NoBias` agent with an oncoming neighbour `1.5 m`
straight ahead takes the front-view oncoming branch and loses
`accel * dt / 2` of speed, unclamped. -/
theorem frontStep_oncoming_speed (v : Walker) (hf : v.facing_direction = 0)
    (he : v.etiquette = Etiquette.NoBias) :
    (frontStep (1 / 10) (3 / 2) 0 π v).inst_speed =
      v.inst_speed - PEDESTRIAN_ACCEL * (1 / 10) / 2 := by
  have hpi := Real.pi_pos
  unfold frontStep
  dsimp only
  rw [hf]
  have h4 : rfmod (0 - 0 + TAU + TAU) TAU = 0 := by
    have he4 : (0 : ℝ) - 0 + TAU + TAU = 0 + TAU * ((2 : ℤ) : ℝ) := by
      push_cast
      ring
    rw [he4, rfmod_tau 0 2 le_rfl TAU_pos (by norm_num)]
  rw [h4]
  rw [if_pos (And.intro (by norm_num [PEDESTRIAN_LOOK_AHEAD_RADIUS])
    (Or.inl (by unfold PEDESTRIAN_LOOK_AHEAD_FOV; positivity)))]
  have hdd : rfmod (0 - π + TAU) TAU = 0 - π + TAU := by
    have he0 : (0 : ℝ) - π + TAU = (0 - π + TAU) + TAU * ((0 : ℤ) : ℝ) := by
      norm_num
    rw [he0, rfmod_tau (0 - π + TAU) 0 (by unfold TAU; linarith)
      (by unfold TAU; linarith) le_rfl]
    norm_num
  rw [hdd]
  rw [if_pos (And.intro (by unfold TAU; linarith) (by unfold TAU; linarith))]
  rw [if_neg (by norm_num [PEDESTRIAN_RADIUS, PEDESTRIAN_PSPACE_RADIUS])]
  exact oncomingStep_nobias (1 / 10) 0 v he

/-- Helper: full speed evaluation of one neighbour-loop step for an agent at
the origin facing east with a `NoBias` etiquette and an oncoming neighbour
at `(1.5, 0)` heading west: the unclamped oncoming deceleration fires. -/
theorem neighbourStep_oncoming_eval (v : Walker) (hx : v.x = 0) (hy : v.y = 0)
    (hf : v.facing_direction = 0) (he : v.etiquette = Etiquette.NoBias) :
    (neighbourStep (1 / 10) v (3 / 2, 0, π)).inst_speed =
      v.inst_speed - PEDESTRIAN_ACCEL * (1 / 10) / 2 := by
  unfold neighbourStep
  dsimp only
  have hdist : Real.sqrt ((v.x - 3 / 2) * (v.x - 3 / 2) + (v.y - 0) * (v.y - 0)) = 3 / 2 := by
    rw [hx, hy]
    apply sqrt_eval _ _ (by norm_num)
    norm_num
  have hang : atan2 (0 - v.y) (3 / 2 - v.x) = 0 := by
    rw [hx, hy]
    have h1 : (0 : ℝ) - 0 = 0 := by norm_num
    have h2 : (3 / 2 : ℝ) - 0 = 3 / 2 := by norm_num
    rw [h1, h2]
    exact atan2_zero_pos (3 / 2) (by norm_num)
  rw [hdist, hang]
  rw [show collideStep (3 / 2) 0 v = v from by
    unfold collideStep
    rw [if_neg (by norm_num [PEDESTRIAN_RADIUS])]]
  rw [besideRightStep_far _ _ _ _ (by norm_num [PEDESTRIAN_LOOK_BESIDE_RADIUS])]
  rw [besideLeftStep_far _ _ _ _ (by norm_num [PEDESTRIAN_LOOK_BESIDE_RADIUS])]
  rw [pspaceStep_speed]
  exact frontStep_oncoming_speed v hf he

/-- Counterexample to C5: a `NoBias` agent with target speed `0.01 m/s` at
the origin, facing its destination `(10, 0)`, with an oncoming neighbour at
`(1.5, 0)` heading west, zero-mean noise samples (`1/2`), `dt = 0.1 s`, and
no walls: after `Walker::simulate_timestep` its speed is
`0.01 - 0.04 = -0.03 < 0` — the oncoming-neighbour deceleration of the
`NoBias` branch subtracts without clamping at zero, so the claimed
non-negativity of the speed fails. -/
theorem claim_C5_counterexample :
    (walkerSlow.simulate_timestep (1 / 10) [] [(3 / 2, 0, π)] (1 / 2) (1 / 2)).inst_speed < 0 := by
  unfold Walker.simulate_timestep
  dsimp only
  rw [check_speed, resolve_speed]
  dsimp only
  rw [noise_speed, react_nil, react_singleton]
  have htgt : ((walkerSlow.environment.end_positions.getD walkerSlow.group []).getD
      walkerSlow.target_location ((0 : ℝ), (0 : ℝ))) = ((10 : ℝ), (0 : ℝ)) := rfl
  rw [htgt]
  dsimp only
  have hwy : walkerSlow.y = 0 := rfl
  have hwx : walkerSlow.x = 0 := rfl
  have hwfd : walkerSlow.facing_direction = 0 := rfl
  have hwet : walkerSlow.etiquette = Etiquette.NoBias := rfl
  rw [hwy, hwx, hwfd, hwet]
  have hta : atan2 ((0 : ℝ) - 0) ((10 : ℝ) - 0) = 0 := by
    rw [show ((0 : ℝ) - 0) = 0 by norm_num, show ((10 : ℝ) - 0) = (10 : ℝ) by norm_num]
    exact atan2_zero_pos 10 (by norm_num)
  rw [hta, nudge_angle_zero]
  rw [if_neg (show ¬(Etiquette.NoBias = Etiquette.LeftBias) by decide)]
  rw [if_neg (show ¬(Etiquette.NoBias = Etiquette.RightBias) by decide)]
  rw [neighbourStep_oncoming_eval _ rfl rfl rfl rfl]
  dsimp only
  rw [show walkerSlow.target_speed = 1 / 100 from rfl, show walkerSlow.inst_speed = (0 : ℝ) from rfl]
  rw [min_eq_left (by norm_num [PEDESTRIAN_ACCEL])]
  norm_num [PEDESTRIAN_ACCEL, PEDESTRIAN_SPEED_NOISE_FACTOR]

/-- Witness for C5 amended at `walkerLeft` (LeftBias etiquette, no
neighbours, zero-mean speed noise). -/
theorem claim_C5_witness :
    0 ≤ (walkerLeft.simulate_timestep (1 / 10) [] [] 0 (1 / 2)).inst_speed :=
  claim_C5_amended walkerLeft (1 / 10) 0 (1 / 2) [] []
    (by decide)
    (by rw [show walkerLeft.target_speed = 1 / 100 from rfl]; norm_num)
    (by rw [show walkerLeft.inst_speed = (0 : ℝ) from rfl])
    (by norm_num)
    (le_refl _)

end

end PedSim
